import Mathlib

/-!
# Verification of the Blade II Online game server core

Shallow embedding of the card model, match state machine, matchmaking
ready-check / removal logic, and the game-server disconnect handler of the
`blade-ii-game-server` repository, together with proofs settling the frozen
claims about it.

Go machine integers are modelled as `Nat` with an explicit `% 2^w` wherever
the Go code can overflow (`uint8` card casts, `uint16` score arithmetic).
Go slices are modelled as `List`, slice mutation as functional update, and
fallible operations return `Option`.
-/

namespace BladeII

/-! ## Cards (src/unnamed/part_029, src/internal/game/cards.go)

`Card` is a typedef for `uint8` in the source; card ids in play are 0..21.
-/

/-- `Card` is a typedef for different card types (Go: `type Card uint8`).
Card values are modelled as plain `Nat` throughout, with `% 256` applied at
the Go cast sites where `uint8` overflow is possible. -/
abbrev Card := Nat

/-- `ElliotsOrbalStaff Card = 0`. -/
def ElliotsOrbalStaff : Nat := 0

/-- `FiesTwinGunswords Card = 1`. -/
def FiesTwinGunswords : Nat := 1

/-- `AlisasOrbalBow Card = 2`. -/
def AlisasOrbalBow : Nat := 2

/-- `JusisSword Card = 3`. -/
def JusisSword : Nat := 3

/-- `MachiasOrbalShotgun Card = 4`. -/
def MachiasOrbalShotgun : Nat := 4

/-- `GaiusSpear Card = 5`. -/
def GaiusSpear : Nat := 5

/-- `LaurasGreatsword Card = 6`. -/
def LaurasGreatsword : Nat := 6

/-- `Bolt Card = 7`. -/
def Bolt : Nat := 7

/-- `Mirror Card = 8`. -/
def Mirror : Nat := 8

/-- `Blast Card = 9`. -/
def Blast : Nat := 9

/-- `Force Card = 10`. -/
def Force : Nat := 10

/-- `InactiveElliotsOrbalStaff Card = 11`. -/
def InactiveElliotsOrbalStaff : Nat := 11

/-- `InactiveForce Card = 21`. -/
def InactiveForce : Nat := 21

/-- Modelled from the spec: the constant `boltedCardOffset` is referenced by
`bolt`, `unBolt` and `getBoltedCardrealValue` in the source but its
declaration is not among the provided files; the spec fixes it as the
"fixed offset of 11" that maps each active card to its inactive variant. -/
def boltedCardOffset : Nat := 11

/-- `Card.Value` (src/unnamed/part_029): point value of a card.
Basic cards 0..6 have values 1..7, active effect cards (Bolt..Force)
have value 1, bolted (inactive) cards have value 0. -/
def cardValue (c : Nat) : Nat :=
  if c < Bolt then c + 1
  else if Bolt ≤ c ∧ c ≤ Force then 1
  else 0

/-- `isBolted` (src/internal/game/match.go): an enum value greater than
`Force` means the card is one of the InactiveX cards. -/
def isBolted (card : Nat) : Bool :=
  card > Force

/-- `getBoltedCardrealValue` (src/internal/game/match.go): value of a bolted
card, if it were unbolted; unbolted cards are unchanged. -/
def getBoltedCardrealValue (card : Nat) : Nat :=
  if card > Force then cardValue ((card - boltedCardOffset) % 256)
  else cardValue card

/-! ## Card-array helpers (src/unnamed/part_033) -/

/-- `last`: a copy of the last card of the array, defaulting to
`ElliotsOrbalStaff` on an empty or nil array. -/
def lastCard (cardSet : List Nat) : Nat :=
  if cardSet.length > 0 then cardSet.getLastD ElliotsOrbalStaff
  else ElliotsOrbalStaff

/-- `removeFirstOfType`: remove the first card of the given type by
overwriting it with the last array member, then trimming the last member.
`none` models the `false` return (no matching card found), in which case the
Go function leaves the array untouched. -/
def removeFirstOfType (cards : List Nat) (toRemove : Nat) : Option (List Nat) :=
  match cards.findIdx? (· = toRemove) with
  | some indexToRemove => some ((cards.set indexToRemove (lastCard cards)).dropLast)
  | none => none

/-- `removeLast`: trim the last member; `none` models the `false` return on
an empty array. -/
def removeLast (cards : List Nat) : Option (List Nat) :=
  if cards.length > 0 then some cards.dropLast
  else none

/-- `containsOnlyEffectCards`: true iff no card below `Bolt` occurs. -/
def containsOnlyEffectCards (cardSet : List Nat) : Bool :=
  cardSet.all (fun c => ¬ c < Bolt)

/-- `canOvercomeDifference`: some card's value meets or beats `difference`. -/
def canOvercomeDifference (cardSet : List Nat) (difference : Nat) : Bool :=
  cardSet.any (fun c => cardValue c ≥ difference)

/-- `contains`: at least one instance of the given card occurs. -/
def containsCard (cardSet : List Nat) (cardToCheck : Nat) : Bool :=
  cardSet.any (fun c => c = cardToCheck)

/-- `bolt`: replace the last card with its inactive (bolted) equivalent,
a noop on an empty array or when the last card is already bolted.
The Go cast chain `Card(uint8(last) + boltedCardOffset)` is `uint8`
arithmetic, hence the `% 256`. -/
def bolt (targetField : List Nat) : List Nat :=
  if targetField.length > 0 then
    if lastCard targetField ≤ Force then
      targetField.dropLast ++ [(lastCard targetField + boltedCardOffset) % 256]
    else targetField
  else targetField

/-- `unBolt`: replace the last card with its active equivalent, a noop on an
empty array or when the last card is already active. The guard
`last ≥ InactiveElliotsOrbalStaff` makes the `uint8` subtraction safe. -/
def unBolt (targetField : List Nat) : List Nat :=
  if targetField.length > 0 then
    if lastCard targetField ≥ InactiveElliotsOrbalStaff then
      targetField.dropLast ++ [lastCard targetField - boltedCardOffset]
    else targetField
  else targetField

/-- `calculateScore` (src/unnamed/part_033): aggregate the card values of a
field into a `uint16` total (hence the `% 65536`); bolted cards add nothing,
a `Force` at index > 0 doubles the running total instead of adding its
value. Translated from the indexed Go for-loop. -/
def calculateScoreGo (targetCards : List Nat) (i : Nat) (total : Nat) : Nat :=
  match targetCards with
  | [] => total
  | card :: rest =>
      if ¬ isBolted card then
        if card = Force ∧ i > 0 then calculateScoreGo rest (i + 1) (total * 2 % 65536)
        else calculateScoreGo rest (i + 1) ((total + cardValue card) % 65536)
      else calculateScoreGo rest (i + 1) total

/-- `calculateScore` entry point: loop from index 0 with total 0. -/
def calculateScore (targetCards : List Nat) : Nat :=
  calculateScoreGo targetCards 0 0

/-! ## Score function as worded by the spec (claim C2)

The spec describes the score as a left fold over the indexed field. These
definitions follow the spec's words (values 1..7 for ids 0..6, value 1 for
active effect cards, bolted means id ≥ 11), to be compared with
`calculateScore` as translated from the source. The arithmetic is carried in
the program's `uint16` domain. -/

/-- Claim C2's card value table: basic cards with ids 0..6 have values 1..7,
the four effect cards Bolt/Mirror/Blast/Force have value 1. -/
def claimCardValue (c : Nat) : Nat :=
  if c ≤ 6 then c + 1
  else if c ≤ 10 then 1
  else 0

/-- One step of claim C2's left fold: a bolted card (id ≥ 11) contributes 0,
an active Force at index > 0 doubles the running total, every other active
card adds its value. -/
def claimScoreStep (total : Nat) (p : Nat × Nat) : Nat :=
  if p.2 ≥ 11 then total
  else if p.2 = Force ∧ p.1 > 0 then total * 2 % 65536
  else (total + claimCardValue p.2) % 65536

/-- Claim C2's score: the left fold of `claimScoreStep` starting at 0 over
the field paired with its indices. -/
def claimScore (field : List Nat) : Nat :=
  (field.enum).foldl claimScoreStep 0

/-! ## Match state (src/internal/game/state.go, match.go)

`Player` mirrors the Go `Player uint8` enum; `Zones` collects one player's
four ordered card lists; `GameSt` is the part of `Match`/`MatchState`
relevant to move resolution, including the two clients' `WaitingForMove`
flags that `updateMatchState` mutates. -/

/-- Player enum: `PlayerUndecided = 0`, `Player1 = 1`, `Player2 = 2`. -/
inductive Player where
  | undecided
  | p1
  | p2
deriving DecidableEq, Repr

/-- One player's card zones: `deck`, `hand`, `field`, `discard`. -/
structure Zones where
  deck : List Nat
  hand : List Nat
  field : List Nat
  discard : List Nat
deriving DecidableEq, Repr

/-- Match state as touched by `updateMatchState`: both player's zones, the
stored scores, the turn marker, and both clients' `WaitingForMove` flags. -/
structure GameSt where
  z1 : Zones
  z2 : Zones
  p1Score : Nat
  p2Score : Nat
  turn : Player
  client1Waiting : Bool
  client2Waiting : Bool
deriving DecidableEq, Repr

/-- `Move` (src/internal/game/move.go): a parsed client move packet. -/
structure Move where
  instruction : Nat
  payload : String
deriving DecidableEq, Repr

/-- The triple returned by `updateMatchState`. -/
structure MoveResult where
  validMove : Bool
  matchEnded : Bool
  winner : Player
deriving DecidableEq, Repr

/-- `B2MatchInstruction.ToCard` (src/unnamed/part_030): instructions in the
range `serverMoveUpdateMin..serverMoveUpdateMax` (1..11) map to cards by
subtracting `serverMoveUpdateToCardOffset` (1); anything else yields the
default `ElliotsOrbalStaff`. -/
def toCard (i : Nat) : Nat :=
  if 1 ≤ i ∧ i ≤ 11 then i - 1
  else ElliotsOrbalStaff

/-- `isValidMove` (src/internal/game/match.go): reject a move made outside
the player's turn unless the turn is undecided; otherwise accept. -/
def isValidMove (st : GameSt) (player : Player) : Bool :=
  if st.turn ≠ player ∧ st.turn ≠ Player.undecided then false
  else true

/-- The target/opposite pointer view taken at the top of `updateMatchState`:
the acting player's hand/field/deck/discard and the other player's
hand/field/discard. The Go `else` branch (which also catches
`PlayerUndecided`) corresponds to `isP1 = false`. -/
structure ZoneView where
  tHand : List Nat
  tField : List Nat
  tDeck : List Nat
  tDiscard : List Nat
  oHand : List Nat
  oField : List Nat
  oDiscard : List Nat
deriving DecidableEq, Repr

/-- Build the pointer view for the acting player. -/
def mkView (st : GameSt) (isP1 : Bool) : ZoneView :=
  if isP1 then
    ⟨st.z1.hand, st.z1.field, st.z1.deck, st.z1.discard,
     st.z2.hand, st.z2.field, st.z2.discard⟩
  else
    ⟨st.z2.hand, st.z2.field, st.z2.deck, st.z2.discard,
     st.z1.hand, st.z1.field, st.z1.discard⟩

/-- Write a pointer view back into the match state (the opposite player's
deck is never written through the view). -/
def applyView (st : GameSt) (isP1 : Bool) (v : ZoneView) : GameSt :=
  if isP1 then
    { st with
      z1 := ⟨v.tDeck, v.tHand, v.tField, v.tDiscard⟩
      z2 := ⟨st.z2.deck, v.oHand, v.oField, v.oDiscard⟩ }
  else
    { st with
      z2 := ⟨v.tDeck, v.tHand, v.tField, v.tDiscard⟩
      z1 := ⟨st.z1.deck, v.oHand, v.oField, v.oDiscard⟩ }

/-- `strconv.Atoi` on the blast payload followed by the Go `Card(int)` cast:
base-10 parse, then truncation to `uint8`. -/
def atoiCard (s : String) : Option Nat :=
  (s.toInt?).map (fun n => (n % 256).toNat)

/-- Outcome of the zone-manipulation part of `updateMatchState` (everything
before the score recomputation). `invalid` carries the state as mutated so
far, since the Go code writes through pointers before failing; `earlyDraw`
is the `return true, false, PlayerUndecided` inside the undecided branch;
`proceed` carries the `usedBlastEffect` and `updateTurn` flags. -/
inductive ResolveOutcome where
  | invalid (st : GameSt)
  | earlyDraw (st : GameSt)
  | proceed (st : GameSt) (usedBlastEffect : Bool) (updateTurn : Bool)
deriving DecidableEq, Repr

/-- The Undecided branch of `updateMatchState`: draw from the deck when
non-empty, otherwise the played card from the hand, onto the field; clear
the acting player's wait flag; report an early return unless both fields
now hold exactly one card. -/
def resolveUndecided (st : GameSt) (player : Player) (isP1 : Bool)
    (v : ZoneView) (inCard : Nat) : ResolveOutcome :=
  let drawn : Option ZoneView :=
    if v.tDeck.length > 0 then
      match removeLast v.tDeck with
      | some tDeck => some { v with tDeck := tDeck }
      | none => none
    else
      match removeFirstOfType v.tHand inCard with
      | some tHand => some { v with tHand := tHand }
      | none => none
  match drawn with
  | none => .invalid st
  | some v =>
      let v := { v with tField := v.tField ++ [inCard] }
      let st2 := applyView st isP1 v
      let st2 :=
        if player = Player.p1 then { st2 with client1Waiting := false }
        else { st2 with client2Waiting := false }
      if v.tField.length = 1 ∧ v.oField.length = 1 then .proceed st2 false true
      else .earlyDraw st2

/-- Bolted-top cleanup: when a normal-or-force card was played and the
acting player's field ends in a bolted card, move that card to the acting
player's discard pile; `none` models the `return false` on a failed
removal. -/
def boltedTopCleanup (v : ZoneView) (usedNormalOrForceCard : Bool) : Option ZoneView :=
  if usedNormalOrForceCard && v.tField.length > 0 && isBolted (lastCard v.tField) then
    let removedCard := lastCard v.tField
    match removeFirstOfType v.tField removedCard with
    | some tField =>
        some { v with tField := tField, tDiscard := v.tDiscard ++ [removedCard] }
    | none => none
  else some v

/-- Effect application or standard play: when the acting player's field is
non-empty and the card is not a normal/force play, run the matching effect
(blast removes the named card from the opponent's hand, rod unbolts the own
field top, bolt bolts the opposite field top, mirror swaps the fields) and
put the played card on the discard pile; otherwise append the played card to
the acting player's field. `none` models the invalid-blast returns. -/
def applyEffect (v : ZoneView) (inCard : Nat) (payload : String)
    (usedRodEffect usedBoltEffect usedMirrorEffect usedBlastEffect
      usedNormalOrForceCard : Bool) : Option ZoneView :=
  if v.tField.length > 0 && !usedNormalOrForceCard then
    if usedBlastEffect then
      match atoiCard payload with
      | none => none
      | some blastedCard =>
          match removeFirstOfType v.oHand blastedCard with
          | none => none
          | some oHand =>
              some { v with
                oHand := oHand
                oDiscard := v.oDiscard ++ [blastedCard]
                tDiscard := v.tDiscard ++ [inCard] }
    else
      let v :=
        if usedRodEffect then { v with tField := unBolt v.tField }
        else if usedBoltEffect then { v with oField := bolt v.oField }
        else if usedMirrorEffect then
          { v with tField := v.oField, oField := v.tField }
        else v
      some { v with tDiscard := v.tDiscard ++ [inCard] }
  else
    some { v with tField := v.tField ++ [inCard] }

/-- Wrap up a decided-turn resolution: on a blast the turn holder's wait
flag is re-armed and the turn is not updated; otherwise the turn update is
scheduled. -/
def finishResolve (st : GameSt) (isP1 : Bool) (v : ZoneView)
    (usedBlastEffect : Bool) : ResolveOutcome :=
  if usedBlastEffect then
    let st2 := applyView st isP1 v
    let st2 :=
      if st2.turn = Player.p1 then { st2 with client1Waiting := true }
      else { st2 with client2Waiting := true }
    .proceed st2 usedBlastEffect false
  else
    .proceed (applyView st isP1 v) usedBlastEffect true

/-- The decided-turn branch of `updateMatchState`: take the played card from
the hand, classify the effect flags, run the bolted-top cleanup and the
effect application, and finish. Failures return `invalid` carrying the
state as mutated so far (the Go code writes through pointers before
failing). -/
def resolveMain (st : GameSt) (isP1 : Bool) (v : ZoneView)
    (targetScore inCard : Nat) (payload : String) : ResolveOutcome :=
  match removeFirstOfType v.tHand inCard with
  | none => .invalid st
  | some tHand =>
      let v := { v with tHand := tHand }
      let usedRodEffect : Bool :=
        inCard = ElliotsOrbalStaff ∧ v.tField.length > 0 ∧ isBolted (lastCard v.tField)
      let usedBoltEffect : Bool :=
        inCard = Bolt ∧ v.oField.length > 0 ∧ ¬ isBolted (lastCard v.oField)
      let usedMirrorEffect : Bool :=
        inCard = Mirror ∧ v.tField.length > 0 ∧ v.oField.length > 0
      let usedBlastEffect : Bool := inCard = Blast ∧ v.oHand.length > 0
      let usedForceEffect : Bool := inCard = Force ∧ targetScore > 0
      let usedNormalOrForceCard : Bool :=
        (!usedRodEffect && !usedBoltEffect && !usedMirrorEffect && !usedBlastEffect)
          || usedForceEffect
      match boltedTopCleanup v usedNormalOrForceCard with
      | none => .invalid (applyView st isP1 v)
      | some v2 =>
          match applyEffect v2 inCard payload usedRodEffect usedBoltEffect
              usedMirrorEffect usedBlastEffect usedNormalOrForceCard with
          | none => .invalid (applyView st isP1 v2)
          | some v3 => finishResolve st isP1 v3 usedBlastEffect

/-- The zone-manipulation part of `updateMatchState`
(src/internal/game/match.go, up to the score recomputation): set up the
target/opposite view and dispatch on whether the turn is undecided. -/
def resolveZones (st : GameSt) (player : Player) (move : Move) : ResolveOutcome :=
  let isP1 := player = Player.p1
  let v := mkView st isP1
  let targetScore := if isP1 then st.p1Score else st.p2Score
  let inCard := toCard move.instruction
  if st.turn = Player.undecided then resolveUndecided st player isP1 v inCard
  else resolveMain st isP1 v targetScore inCard move.payload

/-- Recompute both stored scores from the current fields
(`match.State.PlayerXScore = calculateScore(...)`). -/
def recomputeScores (st : GameSt) : GameSt :=
  { st with
    p1Score := calculateScore st.z1.field
    p2Score := calculateScore st.z2.field }

/-- `isDrawn` (src/internal/game/match.go): both decks empty, both hands
empty, and the scores equal. -/
def isDrawn (st : GameSt) : Bool :=
  st.z1.deck.length + st.z2.deck.length = 0 ∧
    (st.z1.hand.length + st.z2.hand.length = 0 ∧ st.p1Score = st.p2Score)

/-- The body of `playerHasWon` (src/internal/game/match.go) after its
player-dependent local variables have been assigned, translated early-return
for early-return, including the feasibility checks of the score-gap
section. -/
def playerHasWonCore (targetPlayerScore : Nat) (targetField : List Nat)
    (oppositePlayerScore : Nat) (oppositePlayerHand : List Nat)
    (oppositePlayerField : List Nat) (oppositePlayerDeckCount : Nat)
    (isOppositePlayersTurn usedBlastEffect : Bool) : Bool :=
  -- Auto-win: the opponent's non-empty hand holds only effect cards.
  if oppositePlayerHand.length > 0 && containsOnlyEffectCards oppositePlayerHand then true
  -- Tied scores with the opponent out of deck and hand.
  else if targetPlayerScore = oppositePlayerScore ∧
      oppositePlayerDeckCount + oppositePlayerHand.length = 0 then true
  -- A blast emptied the opponent's hand.
  else if usedBlastEffect = true ∧ oppositePlayerHand.length = 0 then true
  else if targetPlayerScore > oppositePlayerScore then
    let scoreGap := targetPlayerScore - oppositePlayerScore
    -- The opponent moved and failed to beat the target player's score.
    if isOppositePlayersTurn && !usedBlastEffect then true
    -- The opponent has no cards left to counter with.
    else if oppositePlayerHand.length = 0 then true
    -- Feasibility checks: each can only conclude "no win".
    else if canOvercomeDifference oppositePlayerHand scoreGap then false
    else if containsCard oppositePlayerHand ElliotsOrbalStaff &&
        (oppositePlayerField.length > 0 && isBolted (lastCard oppositePlayerField)) &&
        (if lastCard oppositePlayerField = InactiveForce then
          decide (oppositePlayerScore * 2 % 65536 ≥ targetPlayerScore)
        else decide (getBoltedCardrealValue (lastCard oppositePlayerField) ≥ scoreGap))
      then false
    else if containsCard oppositePlayerHand Bolt &&
        (targetField.length > 0 && !isBolted (lastCard targetField)) then false
    else if containsCard oppositePlayerHand Mirror then false
    else if containsCard oppositePlayerHand Blast then false
    else if containsCard oppositePlayerHand Force &&
        decide (oppositePlayerScore * 2 % 65536 > targetPlayerScore) then false
    else false
  else false

/-- `playerHasWon` (src/internal/game/match.go): assign the target/opposite
local variables for the given player (returning false for a non-player) and
run the shared win-check body. -/
def playerHasWon (st : GameSt) (player : Player) (usedBlastEffect : Bool) : Bool :=
  let isOppositePlayersTurn : Bool := ¬ st.turn = player
  if player = Player.p1 then
    playerHasWonCore st.p1Score st.z1.field st.p2Score st.z2.hand st.z2.field
      st.z2.deck.length isOppositePlayersTurn usedBlastEffect
  else if player = Player.p2 then
    playerHasWonCore st.p2Score st.z2.field st.p1Score st.z1.hand st.z1.field
      st.z1.deck.length isOppositePlayersTurn usedBlastEffect
  else false

/-- `checkForMatchEnd` (src/internal/game/match.go): drawn, player 1 won,
player 2 won, or still in progress. -/
def checkForMatchEnd (st : GameSt) (usedBlastEffect : Bool) : Bool × Player :=
  if isDrawn st then (true, Player.undecided)
  else if playerHasWon st Player.p1 usedBlastEffect then (true, Player.p1)
  else if playerHasWon st Player.p2 usedBlastEffect then (true, Player.p2)
  else (false, Player.undecided)

/-- The `if updateTurn` block of `updateMatchState`: clear both wait flags,
then on a tie set the turn undecided, re-arm both wait flags and dump both
fields into their owners' discard piles; otherwise hand the turn (and the
wait flag) to the lower-scoring player. -/
def applyTurnUpdate (st : GameSt) : GameSt :=
  let st := { st with client1Waiting := false, client2Waiting := false }
  if st.p1Score = st.p2Score then
    -- Board clear: `targetDiscard += targetField; targetField = nil` and the
    -- same for the opposite player, written here symmetrically.
    { st with
      turn := Player.undecided
      client1Waiting := true
      client2Waiting := true
      z1 := { st.z1 with discard := st.z1.discard ++ st.z1.field, field := [] }
      z2 := { st.z2 with discard := st.z2.discard ++ st.z2.field, field := [] } }
  else if st.p1Score < st.p2Score then
    { st with turn := Player.p1, client1Waiting := true }
  else
    { st with turn := Player.p2, client2Waiting := true }

/-- `updateMatchState` (src/internal/game/match.go): resolve the zones,
recompute both scores, check for a match end (only when the turn is
decided), and finally update the turn when required. -/
def updateMatchState (st : GameSt) (player : Player) (move : Move) :
    MoveResult × GameSt :=
  match resolveZones st player move with
  | .invalid st => (⟨false, false, Player.undecided⟩, st)
  | .earlyDraw st => (⟨true, false, Player.undecided⟩, st)
  | .proceed st usedBlastEffect updateTurn =>
      let st := recomputeScores st
      if st.turn ≠ Player.undecided then
        match checkForMatchEnd st usedBlastEffect with
        | (true, winner) => (⟨true, true, winner⟩, st)
        | (false, _) =>
            let st := if updateTurn then applyTurnUpdate st else st
            (⟨true, false, Player.undecided⟩, st)
      else
        let st := if updateTurn then applyTurnUpdate st else st
        (⟨true, false, Player.undecided⟩, st)

/-! ## Derived predicates for the claims about move resolution -/

/-- A player's zone total `|deck|+|hand|+|field|+|discard|`. -/
def zonesTotal (z : Zones) : Nat :=
  z.deck.length + z.hand.length + z.field.length + z.discard.length

/-- The combined zone total of both players. -/
def totalCards (st : GameSt) : Nat :=
  zonesTotal st.z1 + zonesTotal st.z2

/-- The `WaitingForMove` flag of the given player's client. -/
def waitingOf (st : GameSt) (player : Player) : Bool :=
  if player = Player.p1 then st.client1Waiting else st.client2Waiting

/-- Whether a move resolves the Mirror effect: the turn is decided, the
played card is Mirror, and both fields are non-empty (the conditions under
which `updateMatchState` swaps the two field lists). -/
def mirrorResolved (st : GameSt) (player : Player) (move : Move) : Bool :=
  st.turn ≠ Player.undecided ∧ toCard move.instruction = Mirror ∧
    (mkView st (player = Player.p1)).tField.length > 0 ∧
    (mkView st (player = Player.p1)).oField.length > 0

/-- Whether a move resolves the Blast effect (the Go `usedBlastEffect`
flag): the turn is decided, the played card is Blast, and the opponent's
hand is non-empty. -/
def blastResolved (st : GameSt) (player : Player) (move : Move) : Bool :=
  st.turn ≠ Player.undecided ∧ toCard move.instruction = Blast ∧
    (mkView st (player = Player.p1)).oHand.length > 0

/-- The early-return condition of the Undecided branch: after the draw,
not both fields hold exactly one card. -/
def undecidedEarlyReturn (st : GameSt) (player : Player) : Bool :=
  st.turn = Player.undecided ∧
    ¬ ((mkView st (player = Player.p1)).tField.length + 1 = 1 ∧
      (mkView st (player = Player.p1)).oField.length = 1)

/-- Total card count on the target side of a view. -/
def tTot (v : ZoneView) : Nat :=
  v.tHand.length + v.tField.length + v.tDeck.length + v.tDiscard.length

/-- Total card count on the opposite side of a view (the opposite deck is
not part of the view). -/
def oTot (v : ZoneView) : Nat :=
  v.oHand.length + v.oField.length + v.oDiscard.length

/-! ## Protocol codes (src/internal/protocol)

The `B2Code` constants and websocket message types used by the embedded
logic, as plain naturals. -/

/-- `WSMTText Type = 1`. -/
def WSMTText : Nat := 1

/-- `WSCNone B2Code = 0`. -/
def WSCNone : Nat := 0

/-- `WSCUnknownConnectionError B2Code = 101`. -/
def WSCUnknownConnectionError : Nat := 101

/-- `WSCReadyCheckFailed B2Code = 303`. -/
def WSCReadyCheckFailed : Nat := 303

/-- `WSCOpponentAccepted B2Code = 305`. -/
def WSCOpponentAccepted : Nat := 305

/-- `WSCOpponentDidNotAccept B2Code = 306`. -/
def WSCOpponentDidNotAccept : Nat := 306

/-- `WSCMatchMultipleConnections B2Code = 408`. -/
def WSCMatchMultipleConnections : Nat := 408

/-- `WSCMatchFull B2Code = 409`. -/
def WSCMatchFull : Nat := 409

/-- `WSCMatchIllegalMove B2Code = 411`. -/
def WSCMatchIllegalMove : Nat := 411

/-- `WSCMatchRelayMessage B2Code = 412`. -/
def WSCMatchRelayMessage : Nat := 412

/-- `WSCMatchMove B2Code = 413`. -/
def WSCMatchMove : Nat := 413

/-- `WSCMatchForfeit B2Code = 415`. -/
def WSCMatchForfeit : Nat := 415

/-- `WSCMatchTimeOut B2Code = 417`. -/
def WSCMatchTimeOut : Nat := 417

/-- `WSCMatchWin B2Code = 418`. -/
def WSCMatchWin : Nat := 418

/-- `WSCMatchDraw B2Code = 419`. -/
def WSCMatchDraw : Nat := 419

/-- `WSCMatchLoss B2Code = 420`. -/
def WSCMatchLoss : Nat := 420

/-! ## tickClient message dispatch (src/internal/game/match.go)

The branch structure of `tickClient` for one inbound message: the outer
check is on the websocket message type, the move branch checks the payload
code, but the forfeit and relay branches compare `message.Type` (not the
payload code) against the `B2Code` constants. -/

/-- The action `tickClient` takes for one drained inbound message. -/
inductive TickAction where
  | moveAction
  | forfeitAction
  | relayAction
  | ignored
deriving DecidableEq, Repr

/-- The dispatch of `tickClient` on a message's type and payload code,
translated condition for condition. -/
def tickClientDispatch (msgType : Nat) (payloadCode : Nat) : TickAction :=
  if msgType = WSMTText then
    if payloadCode = WSCMatchMove then .moveAction
    else if msgType = WSCMatchForfeit then .forfeitAction
    else if msgType = WSCMatchRelayMessage then .relayAction
    else .ignored
  else .ignored

/-! ## Matchmaking ready check (src/internal/matchmaking/matchmaking.go) -/

/-- `readyCheckTime = time.Second * 20`, in nanoseconds. -/
def readyCheckTimeNs : Int := 20000000000

/-- The matchmaking-relevant fields of an `MMClient`. Times are nanosecond
timestamps as signed integers (Go `time.Time` differences are signed). -/
structure MMClientInfo where
  dbid : Nat
  uuid : Nat
  clientID : Nat
  ready : Bool
  readyTime : Int
  isReadyChecking : Bool
  acceptMessageSentToOpponent : Bool
deriving DecidableEq, Repr

/-- `ClientPair`: two matched clients and the ready-check start time. -/
structure ClientPair where
  client1 : MMClientInfo
  client2 : MMClientInfo
  readyStart : Int
deriving DecidableEq, Repr

/-- `clientPair.ClientX.Ready && clientPair.ClientX.ReadyTime.Sub(readyStart)
<= readyCheckTime`: a client's accept is valid when its ready flag is set
and its accept arrived within the ready-check window. -/
def readyValid (pair : ClientPair) (c : MMClientInfo) : Bool :=
  c.ready && (c.readyTime - pair.readyStart ≤ readyCheckTimeNs)

/-- The observable effects of one `pollReadyCheck` call: the returned
`finished` flag, the two clients' updated flag fields, the disconnect
requests enqueued via `queue.Remove` (client slot, code) in order, the
messages sent directly to a client (client slot, code), and whether
`SendMatchConfirmedMessage` was invoked. -/
structure ReadyCheckOutcome where
  finished : Bool
  client1 : MMClientInfo
  client2 : MMClientInfo
  removals : List (Nat × Nat)
  messages : List (Nat × Nat)
  matchConfirmedSent : Bool
deriving DecidableEq, Repr

/-- `pollReadyCheck` (src/internal/matchmaking/matchmaking.go), translated
branch for branch. `queueNow` stands for `time.Now()` and
`createMatchResult` for the value returned by `database.CreateMatch` on the
path that calls it. Note that in the source a `CreateMatch` error enqueues
both clients with `ReadyCheckFailed` but does not return: the confirmation
message and the two neutral removals still run. -/
def pollReadyCheck (queueNow : Int) (pair : ClientPair)
    (createMatchResult : Except String Nat) : ReadyCheckOutcome :=
  let timedOut := queueNow - pair.readyStart > readyCheckTimeNs
  let client1ReadyValid := readyValid pair pair.client1
  let client2ReadyValid := readyValid pair pair.client2
  if (client1ReadyValid && client2ReadyValid) || timedOut then
    if timedOut && (!client1ReadyValid || !client2ReadyValid) then
      let r1 :=
        if !client1ReadyValid then
          (pair.client1, [((1 : Nat), WSCReadyCheckFailed)], ([] : List (Nat × Nat)))
        else
          ({ pair.client1 with isReadyChecking := false, ready := false },
            ([] : List (Nat × Nat)), [((1 : Nat), WSCOpponentDidNotAccept)])
      let r2 :=
        if !client2ReadyValid then
          (pair.client2, [((2 : Nat), WSCReadyCheckFailed)], ([] : List (Nat × Nat)))
        else
          ({ pair.client2 with isReadyChecking := false, ready := false },
            ([] : List (Nat × Nat)), [((2 : Nat), WSCOpponentDidNotAccept)])
      { finished := true
        client1 := r1.1
        client2 := r2.1
        removals := r1.2.1 ++ r2.2.1
        messages := r1.2.2 ++ r2.2.2
        matchConfirmedSent := false }
    else
      match createMatchResult with
      | .error _ =>
          -- The error path falls through: both ReadyCheckFailed removals,
          -- then the confirmation broadcast and the two neutral removals.
          { finished := true
            client1 := pair.client1
            client2 := pair.client2
            removals := [(1, WSCReadyCheckFailed), (2, WSCReadyCheckFailed),
              (1, WSCNone), (2, WSCNone)]
            messages := []
            matchConfirmedSent := true }
      | .ok _ =>
          { finished := true
            client1 := pair.client1
            client2 := pair.client2
            removals := [(1, WSCNone), (2, WSCNone)]
            messages := []
            matchConfirmedSent := true }
  else if client1ReadyValid ≠ client2ReadyValid then
    if client1ReadyValid && !pair.client1.acceptMessageSentToOpponent then
      { finished := false
        client1 := { pair.client1 with acceptMessageSentToOpponent := true }
        client2 := pair.client2
        removals := []
        messages := [(2, WSCOpponentAccepted)]
        matchConfirmedSent := false }
    else if client2ReadyValid && !pair.client2.acceptMessageSentToOpponent then
      { finished := false
        client1 := pair.client1
        client2 := { pair.client2 with acceptMessageSentToOpponent := true }
        removals := []
        messages := [(1, WSCOpponentAccepted)]
        matchConfirmedSent := false }
    else
      { finished := false, client1 := pair.client1, client2 := pair.client2,
        removals := [], messages := [], matchConfirmedSent := false }
  else
    { finished := false, client1 := pair.client1, client2 := pair.client2,
      removals := [], messages := [], matchConfirmedSent := false }

/-! ## Matchmaking removal phase (src/internal/matchmaking/matchmaking.go,
`MainLoop`) -/

/-- The queue-relevant fields of a client seated in the matchmaking map. -/
structure MMQClient where
  dbid : Nat
  uuid : Nat
  clientID : Nat
deriving DecidableEq, Repr

/-- A pending `DisconnectRequest`'s client snapshot. -/
structure MMRemoveRequest where
  dbid : Nat
  uuid : Nat
  clientID : Nat
deriving DecidableEq, Repr

/-- Lookup in the `dbId → client` queue map (modelled as an association
list; Go map iteration order is never relied upon here). -/
def queueLookup (q : List (Nat × MMQClient)) (k : Nat) : Option MMQClient :=
  (q.find? (fun p => p.1 = k)).map (fun p => p.2)

/-- `delete(queue.queue, dbid)`. -/
def queueErase (q : List (Nat × MMQClient)) (k : Nat) : List (Nat × MMQClient) :=
  q.filter (fun p => ¬ p.1 = k)

/-- Insert into a sorted request list by ascending `ClientID` (models the
`sort.Slice` ascending sort of the pending-removal slice). -/
def insertByClientID (r : MMRemoveRequest) :
    List MMRemoveRequest → List MMRemoveRequest
  | [] => [r]
  | x :: xs =>
      if r.clientID ≤ x.clientID then r :: x :: xs
      else x :: insertByClientID r xs

/-- Sort the pending-removal requests by ascending `ClientID`. -/
def sortByClientID : List MMRemoveRequest → List MMRemoveRequest
  | [] => []
  | x :: xs => insertByClientID x (sortByClientID xs)

/-- The inner `for indexIterator >= 0` scan of the removal phase. The Go
iterator `indexIterator` is carried as `k = indexIterator + 1` so that 0
encodes the exhausted iterator. The guard compares
`queue.clientIndex[index]` — with the OUTER loop index — against the
removed client's dbId; on a hit the entry at `indexIterator` is removed
(with the length-one special case) and the scan breaks without
decrementing. Out-of-range reads (a Go panic) are modelled by the default
value 0 and an out-of-range `eraseIdx` as a no-op. -/
def clientIndexScan (ci : List Nat) (index dbid : Nat) : Nat → List Nat × Nat
  | 0 => (ci, 0)
  | k + 1 =>
      if ci.getD index 0 = dbid then
        (if ci.length = 1 then ([] : List Nat) else ci.eraseIdx k, k + 1)
      else clientIndexScan ci index dbid k

/-- One pass of the outer removal loop, iterating `index` from
`toRemove.length - 1` down to 0 (the counter argument is `index + 1`).
State: `(clientIndex, queue map, indexIterator + 1)`. `client.Close` has no
effect on the queue state and is not modelled. -/
def removalLoop (toRemove : List MMRemoveRequest) :
    Nat → List Nat × List (Nat × MMQClient) × Nat →
      List Nat × List (Nat × MMQClient) × Nat
  | 0, s => s
  | n + 1, (ci, q, k) =>
      let req := toRemove.getD n ⟨0, 0, 0⟩
      match queueLookup q req.dbid with
      | none => removalLoop toRemove n (ci, q, k)
      | some client =>
          if client.uuid = req.uuid then
            let q2 := queueErase q req.dbid
            let s2 := clientIndexScan ci n req.dbid k
            removalLoop toRemove n (s2.1, q2, s2.2)
          else removalLoop toRemove n (ci, q, k)

/-- The removal phase of the matchmaking `MainLoop`: sort the pending
requests by ordering index, then run the backwards outer loop with the
persistent index iterator starting at `len(clientIndex) - 1`. -/
def removalPhase (ci : List Nat) (q : List (Nat × MMQClient))
    (toRemove : List MMRemoveRequest) : List Nat × List (Nat × MMQClient) :=
  let sorted := sortByClientID toRemove
  let s := removalLoop sorted sorted.length (ci, q, ci.length)
  (s.1, s.2.1)

/-! ## Game service disconnect handling (src/internal/game/server.go)

The state machine needed for the match-finality claim: the match map, a
journal of `SetMatchResult` invocations, and the connect / disconnect
handlers. Card generation, message sending and timers are irrelevant to
the `SetMatchResult` count and are not modelled. -/

/-- `debugGameID = 20`. -/
def debugGameID : Nat := 20

/-- Phase `WaitingForPlayers = 0`. -/
def WaitingForPlayers : Nat := 0

/-- Phase `Play = 1`. -/
def Play : Nat := 1

/-- Phase `Finished = 2`. -/
def Finished : Nat := 2

/-- The identity of a `GClient` connected to the game service. -/
structure GSClient where
  dbid : Nat
  uuid : Nat
  matchID : Nat
deriving DecidableEq, Repr

/-- A `Match` as seen by the server: its ID, the two (possibly empty)
client slots, the phase and the recorded winner dbId (0 until set). -/
structure GMatch where
  id : Nat
  client1 : Option GSClient
  client2 : Option GSClient
  phase : Nat
  winner : Nat
deriving DecidableEq, Repr

/-- The game-server state: the match map and the journal of match IDs for
which the body of `SetMatchResult` ran (the debug match is excluded inside
`SetMatchResult` itself). -/
structure GSState where
  matchMap : List (Nat × GMatch)
  smrCalls : List Nat
deriving DecidableEq, Repr

/-- An `UnregisterRequest`: the requesting client and the reason code. -/
structure GSUnregisterRequest where
  client : GSClient
  reason : Nat
deriving DecidableEq, Repr

/-- Lookup in the match map. -/
def matchLookup (m : List (Nat × GMatch)) (k : Nat) : Option GMatch :=
  (m.find? (fun p => p.1 = k)).map (fun p => p.2)

/-- Store an updated match under its ID. -/
def matchStore (ms : List (Nat × GMatch)) (k : Nat) (m : GMatch) :
    List (Nat × GMatch) :=
  ms.map (fun p => if p.1 = k then (p.1, m) else p)

/-- `delete(gs.matchMap, id)`. -/
def matchErase (ms : List (Nat × GMatch)) (k : Nat) : List (Nat × GMatch) :=
  ms.filter (fun p => ¬ p.1 = k)

/-- `GClient.IsSameConnection`: false against a nil pointer, otherwise a
UUID comparison. -/
def isSameConnection (c : GSClient) (other : Option GSClient) : Bool :=
  match other with
  | none => false
  | some o => c.uuid = o.uuid

/-- `Match.SetMatchResult` as observed by the journal: an early exit for
the debug match, otherwise one database write for this match ID. -/
def setMatchResultCall (s : GSState) (m : GMatch) : GSState :=
  if m.id = debugGameID then s
  else { s with smrCalls := s.smrCalls ++ [m.id] }

/-- Modelled from the spec: `isMatchGracefullyFinished` is called by
`handleDisconnectRequests` but its definition is not among the provided
files; the spec reads "If the match has already finished gracefully
(`phase=Finished`) and the reason is neither `Win` nor `Draw`, ignore". -/
def isMatchGracefullyFinished (m : GMatch) : Bool :=
  m.phase = Finished

/-- The connect-case of the game server `MainLoop` (src/internal/game/
server.go): seat the client, evicting a previous connection of the same
user via a `MultipleConnections` removal request, and start the match when
both slots are filled (`SetMatchStart` sets the phase to `Play`; the card
generation and data messages it triggers do not touch the match map or
the result journal). Returns the new state and the removal requests that
were enqueued. -/
def handleConnect (s : GSState) (client : GSClient) :
    GSState × List GSUnregisterRequest :=
  match matchLookup s.matchMap client.matchID with
  | some m =>
      if m.phase ≥ Play then (s, [⟨client, WSCMatchFull⟩])
      else
        let seated : GMatch × List GSUnregisterRequest :=
          match m.client1 with
          | none =>
              match m.client2 with
              | none => ({ m with client1 := some client }, [])
              | some c2 =>
                  if c2.dbid = client.dbid then
                    ({ m with client2 := some client },
                      [⟨c2, WSCMatchMultipleConnections⟩])
                  else ({ m with client1 := some client }, [])
          | some c1 =>
              if c1.dbid = client.dbid then
                ({ m with client1 := some client },
                  [⟨c1, WSCMatchMultipleConnections⟩])
              else ({ m with client2 := some client }, [])
        let started : GMatch :=
          match seated.1.client1, seated.1.client2 with
          | some _, some _ => { seated.1 with phase := Play }
          | _, _ => seated.1
        ({ s with matchMap := matchStore s.matchMap client.matchID started },
          seated.2)
  | none =>
      ({ s with matchMap :=
          s.matchMap ++ [(client.matchID,
            ⟨client.matchID, some client, none, WaitingForPlayers, 0⟩)] }, [])

/-- One iteration of `handleDisconnectRequests` (src/internal/game/
server.go), translated branch for branch. `initiator.Close`/`other.Close`
and the log statements do not affect the match map or the journal. The
`WSCMatchLoss` branch panics in the source (`log.Panicf`); it is modelled
as leaving the state unchanged, since execution stops there. Nil-pointer
dereferences of `match.Client1` are modelled with default value 0. -/
def handleDisconnectRequest (s : GSState) (req : GSUnregisterRequest) : GSState :=
  match matchLookup s.matchMap req.client.matchID with
  | none => s
  | some m =>
      if isMatchGracefullyFinished m ∧ req.reason ≠ WSCMatchWin ∧
          req.reason ≠ WSCMatchDraw then s
      else
        let other : Option GSClient :=
          if (m.client1.map (fun c => c.dbid)).getD 0 = req.client.dbid
          then m.client2 else m.client1
        let afterReason : GMatch × GSState :=
          if req.reason = WSCUnknownConnectionError then
            if m.phase > WaitingForPlayers then
              let m2 := { m with winner := (other.map (fun c => c.dbid)).getD 0 }
              (m2, setMatchResultCall s m2)
            else (m, s)
          else if req.reason = WSCMatchForfeit then (m, setMatchResultCall s m)
          else if req.reason = WSCMatchIllegalMove then (m, setMatchResultCall s m)
          else if req.reason = WSCMatchTimeOut then (m, setMatchResultCall s m)
          else if req.reason = WSCMatchWin then (m, setMatchResultCall s m)
          else if req.reason = WSCMatchLoss then (m, s)
          else (m, setMatchResultCall s m)
        let m2 := afterReason.1
        let s2 := afterReason.2
        if m2.phase > WaitingForPlayers then
          let m3 := { m2 with phase := Finished }
          if isSameConnection req.client m3.client1 ||
              isSameConnection req.client m3.client2 then
            { s2 with matchMap := matchErase s2.matchMap m3.id }
          else
            { s2 with matchMap := matchStore s2.matchMap req.client.matchID m3 }
        else
          let m3 :=
            if isSameConnection req.client m2.client1 then
              { m2 with client1 := none }
            else if isSameConnection req.client m2.client2 then
              { m2 with client2 := none }
            else m2
          { s2 with matchMap := matchStore s2.matchMap req.client.matchID m3 }

/-- An event fed to the game service: a client connect (whose enqueued
removal requests are handled in the same tick's disconnect phase, as in
the server loop) or a disconnect request from a client's pumps. -/
inductive GSEvent where
  | connect (client : GSClient)
  | disconnect (req : GSUnregisterRequest)
deriving DecidableEq, Repr

/-- Run a sequence of game-service events: connects seat clients and their
eviction requests are processed by the disconnect handler of the same
tick; disconnect events go straight to the handler. -/
def runGameServer : GSState → List GSEvent → GSState
  | s, [] => s
  | s, .connect c :: rest =>
      let r := handleConnect s c
      runGameServer (r.2.foldl handleDisconnectRequest r.1) rest
  | s, .disconnect req :: rest =>
      runGameServer (handleDisconnectRequest s req) rest


/-- `isBolted` holds exactly on ids at least 11. -/
theorem isBolted_eq (c : Nat) : isBolted c = decide (11 ≤ c) := by
  simp only [isBolted, Force]
  by_cases h : 10 < c
  · simp [h, Nat.le_of_lt_succ, show 11 ≤ c from h]
  · simp [h, show ¬ 11 ≤ c from fun hc => h (by omega)]

/-- The source's value table and the claim's value table agree. -/
theorem cardValue_eq_claim (c : Nat) : cardValue c = claimCardValue c := by
  simp only [cardValue, claimCardValue, Bolt, Force]
  split_ifs <;> omega

/-- Generalisation of claim C2 to an arbitrary loop entry point: the Go loop
body starting at index `i` with accumulator `t` agrees with the spec's fold
over the tail enumerated from `i`. -/
theorem calculateScoreGo_eq_foldl (l : List Nat) :
    ∀ i t, calculateScoreGo l i t = (l.enumFrom i).foldl claimScoreStep t := by
  induction l with
  | nil => intro i t; rfl
  | cons c rest ih =>
      intro i t
      simp only [calculateScoreGo, List.enumFrom, List.foldl_cons, ih, isBolted_eq,
        claimScoreStep, decide_eq_true_eq]
      by_cases h11 : 11 ≤ c
      · simp [h11]
      · by_cases hf : c = Force ∧ i > 0
        · have hforce : ¬ 11 ≤ Force := by simp [Force]
          simp [h11, hf, hf.1, hforce]
        · simp [h11, hf, cardValue_eq_claim]

/-- Helper: a non-empty list is its `dropLast` followed by its last card. -/
theorem dropLast_append_lastCard {l : List Nat} (h : l ≠ []) :
    l.dropLast ++ [lastCard l] = l := by
  have hlen : l.length > 0 := List.length_pos.mpr h
  simp only [lastCard, hlen, if_pos, List.getLastD_eq_getLast?,
    List.getLast?_eq_getLast l h]
  exact List.dropLast_append_getLast h

/-- Helper: `lastCard` of a list ending in `x` is `x`. -/
theorem lastCard_concat (l : List Nat) (x : Nat) : lastCard (l ++ [x]) = x := by
  simp [lastCard, List.getLastD_concat]

/-- C2. Score function: for every card list, `calculateScore` (translated
from the Go loop) equals the left fold starting at 0 described by the spec:
a bolted card (id ≥ 11) contributes 0, an active Force at index > 0 doubles
the running total instead of adding its value, and every other active card
adds its value (basic cards with ids 0..6 have values 1..7, active effect
cards have value 1; an active Force at index 0 adds its value 1). -/
theorem C2_calculateScore_eq_claimScore :
    ∀ field : List Nat, calculateScore field = claimScore field := by
  intro field
  simp [calculateScore, claimScore, List.enum, calculateScoreGo_eq_foldl]

/-- C10. Bolt/unBolt round trip: on a non-empty list whose last card is
active (id at most `Force`), `bolt` replaces the last card with the card at
id+11 and `unBolt` undoes this, returning the original list; `unBolt`
replaces a bolted last card (id ≥ 11) with the card at id-11; both functions
are no-ops on an empty list, `bolt` is a no-op when the last card is already
bolted, and `unBolt` is a no-op when the last card is active. -/
theorem C10_bolt_unBolt_round_trip :
    (∀ field : List Nat, field ≠ [] → lastCard field ≤ Force →
      bolt field = field.dropLast ++ [lastCard field + 11] ∧
      unBolt (bolt field) = field) ∧
    (∀ field : List Nat, field ≠ [] → 11 ≤ lastCard field →
      unBolt field = field.dropLast ++ [lastCard field - 11]) ∧
    bolt [] = [] ∧ unBolt [] = [] ∧
    (∀ field : List Nat, field ≠ [] → isBolted (lastCard field) = true →
      bolt field = field) ∧
    (∀ field : List Nat, field ≠ [] → lastCard field ≤ Force →
      unBolt field = field) := by
  refine ⟨?_, ?_, rfl, rfl, ?_, ?_⟩
  · intro field hne hact
    have hlen : field.length > 0 := List.length_pos.mpr hne
    have hmod : (lastCard field + boltedCardOffset) % 256 = lastCard field + 11 := by
      have : lastCard field ≤ 10 := hact
      simp only [boltedCardOffset]
      omega
    have hbolt : bolt field = field.dropLast ++ [lastCard field + 11] := by
      simp [bolt, hlen, hact, hmod]
    refine ⟨hbolt, ?_⟩
    rw [hbolt]
    have hlast : lastCard (field.dropLast ++ [lastCard field + 11]) =
        lastCard field + 11 := lastCard_concat _ _
    have hge : InactiveElliotsOrbalStaff ≤ lastCard field + 11 := by
      simp only [InactiveElliotsOrbalStaff]; omega
    simp only [unBolt, List.length_append, List.length_singleton, hlast]
    have hlen2 : field.dropLast.length + 1 > 0 := by omega
    rw [if_pos hlen2, if_pos (by simpa [hlast] using hge)]
    simp only [List.dropLast_concat, boltedCardOffset]
    have : lastCard field + 11 - 11 = lastCard field := by omega
    rw [this]
    exact dropLast_append_lastCard hne
  · intro field hne hblt
    have hlen : field.length > 0 := List.length_pos.mpr hne
    have hge : InactiveElliotsOrbalStaff ≤ lastCard field := hblt
    simp [unBolt, hlen, hge, boltedCardOffset]
  · intro field hne hblt
    have hlen : field.length > 0 := List.length_pos.mpr hne
    have hgt : ¬ lastCard field ≤ Force := by
      simp only [isBolted, decide_eq_true_eq] at hblt
      omega
    simp [bolt, hlen, hgt]
  · intro field hne hact
    have hlen : field.length > 0 := List.length_pos.mpr hne
    have hlt : ¬ InactiveElliotsOrbalStaff ≤ lastCard field := by
      simp only [InactiveElliotsOrbalStaff]
      simp only [Force] at hact
      omega
    simp [unBolt, hlen, hlt]

/-- Witness for C10 at a concrete input: bolting then unbolting a field
ending in an active `GaiusSpear` returns the original field, and the no-op
cases evaluate as stated. -/
theorem C10_bolt_unBolt_round_trip_witness :
    bolt [JusisSword, GaiusSpear] = [JusisSword, 16] ∧
    unBolt (bolt [JusisSword, GaiusSpear]) = [JusisSword, GaiusSpear] ∧
    bolt [JusisSword, InactiveForce] = [JusisSword, InactiveForce] ∧
    unBolt [JusisSword, GaiusSpear] = [JusisSword, GaiusSpear] := by
  refine ⟨?_, ?_, ?_, ?_⟩
  · have h := (C10_bolt_unBolt_round_trip.1 [JusisSword, GaiusSpear]
      (by decide) (by decide)).1
    simpa using h
  · exact (C10_bolt_unBolt_round_trip.1 [JusisSword, GaiusSpear]
      (by decide) (by decide)).2
  · exact C10_bolt_unBolt_round_trip.2.2.2.2.1 [JusisSword, InactiveForce]
      (by decide) (by decide)
  · exact C10_bolt_unBolt_round_trip.2.2.2.2.2 [JusisSword, GaiusSpear]
      (by decide) (by decide)

lemma removeFirstOfType_length {l : List Nat} {c : Nat} {l' : List Nat}
    (h : removeFirstOfType l c = some l') : l.length = l'.length + 1 := by
  unfold removeFirstOfType at h
  cases hf : l.findIdx? (· = c) with
  | none => rw [hf] at h; exact absurd h (by simp)
  | some i =>
      rw [hf] at h
      have hne : l ≠ [] := by
        rintro rfl
        simp at hf
      have := List.length_pos.mpr hne
      simp only [Option.some.injEq] at h
      subst h
      simp [List.length_dropLast, List.length_set]
      omega

lemma removeLast_length {l l' : List Nat} (h : removeLast l = some l') :
    l.length = l'.length + 1 := by
  unfold removeLast at h
  split at h
  · simp only [Option.some.injEq] at h
    subst h
    simp [List.length_dropLast]
    omega
  · exact absurd h (by simp)

lemma bolt_length (l : List Nat) : (bolt l).length = l.length := by
  unfold bolt
  split_ifs with h1 h2
  · simp [List.length_dropLast]
    omega
  · rfl
  · rfl

lemma unBolt_length (l : List Nat) : (unBolt l).length = l.length := by
  unfold unBolt
  split_ifs with h1 h2
  · simp [List.length_dropLast]
    omega
  · rfl
  · rfl

lemma boltedTopCleanup_totals {v : ZoneView} {b : Bool} {v2 : ZoneView}
    (h : boltedTopCleanup v b = some v2) :
    tTot v2 = tTot v ∧ oTot v2 = oTot v := by
  unfold boltedTopCleanup at h
  split at h
  · dsimp only at h
    cases hr : removeFirstOfType v.tField (lastCard v.tField) with
    | none => rw [hr] at h; exact absurd h (by simp)
    | some tField =>
        rw [hr] at h
        have hl := removeFirstOfType_length hr
        simp only [Option.some.injEq] at h
        subst h
        simp [tTot, oTot]
        omega
  · simp only [Option.some.injEq] at h
    subst h
    exact ⟨rfl, rfl⟩

lemma applyEffect_totals {v : ZoneView} {inCard : Nat} {payload : String}
    {r b m bl nf : Bool} {v3 : ZoneView}
    (h : applyEffect v inCard payload r b m bl nf = some v3) :
    tTot v3 + oTot v3 = tTot v + oTot v + 1 ∧
    (m = false → tTot v3 = tTot v + 1 ∧ oTot v3 = oTot v) ∧
    (v.tField.length = v.oField.length →
      tTot v3 = tTot v + 1 ∧ oTot v3 = oTot v) := by
  unfold applyEffect at h
  split at h
  · split at h
    · -- blast branch
      cases hp : atoiCard payload with
      | none => rw [hp] at h; exact absurd h (by simp)
      | some blastedCard =>
          rw [hp] at h
          dsimp only at h
          cases hr : removeFirstOfType v.oHand blastedCard with
          | none => rw [hr] at h; exact absurd h (by simp)
          | some oHand =>
              rw [hr] at h
              have hl := removeFirstOfType_length hr
              simp only [Option.some.injEq] at h
              subst h
              simp [tTot, oTot]
              omega
    · -- rod/bolt/mirror/fallthrough branch
      split_ifs at h with hr hb hm <;>
        simp only [Option.some.injEq] at h <;>
        subst h
      · refine ⟨?_, fun _ => ?_, fun _ => ?_⟩ <;>
          simp [tTot, oTot, unBolt_length] <;> omega
      · refine ⟨?_, fun _ => ?_, fun _ => ?_⟩ <;>
          simp [tTot, oTot, bolt_length] <;> omega
      · refine ⟨?_, fun hm2 => ?_, fun heq => ?_⟩
        · simp [tTot, oTot]
          omega
        · simp [hm2] at hm
        · refine ⟨?_, ?_⟩ <;> simp [tTot, oTot, heq] <;> omega
      · refine ⟨?_, fun _ => ?_, fun _ => ?_⟩ <;>
          simp [tTot, oTot] <;> omega
  · -- standard play
    simp only [Option.some.injEq] at h
    subst h
    simp [tTot, oTot]
    omega



lemma zonesTotal_applyView (st : GameSt) (b : Bool) (v : ZoneView) :
    zonesTotal (applyView st b v).z1 =
      (if b then tTot v else st.z1.deck.length + oTot v) ∧
    zonesTotal (applyView st b v).z2 =
      (if b then st.z2.deck.length + oTot v else tTot v) := by
  cases b <;> simp [applyView, zonesTotal, tTot, oTot] <;> omega

lemma mkView_tTot (st : GameSt) (b : Bool) :
    tTot (mkView st b) = (if b then zonesTotal st.z1 else zonesTotal st.z2) := by
  cases b <;> simp [mkView, tTot, zonesTotal] <;> omega

lemma mkView_oTot (st : GameSt) (b : Bool) :
    (if b then st.z2.deck.length else st.z1.deck.length) + oTot (mkView st b) =
      (if b then zonesTotal st.z2 else zonesTotal st.z1) := by
  cases b <;> simp [mkView, oTot, zonesTotal] <;> omega

lemma finishResolve_zones {st : GameSt} {b : Bool} {v : ZoneView} {bl : Bool}
    {st' : GameSt} {b' u' : Bool}
    (h : finishResolve st b v bl = .proceed st' b' u') :
    st'.z1 = (applyView st b v).z1 ∧ st'.z2 = (applyView st b v).z2 := by
  unfold finishResolve at h
  split_ifs at h with h1
  · dsimp only at h
    split_ifs at h with h2 <;> cases h <;> exact ⟨rfl, rfl⟩
  · cases h
    exact ⟨rfl, rfl⟩



lemma boltedTopCleanup_false (v : ZoneView) : boltedTopCleanup v false = some v := rfl

lemma resolveUndecided_zones {st : GameSt} {player : Player} {b : Bool}
    {v : ZoneView} {inCard : Nat} {st' : GameSt} {blf uf : Bool}
    (h : resolveUndecided st player b v inCard = .earlyDraw st' ∨
      resolveUndecided st player b v inCard = .proceed st' blf uf) :
    ∃ v2, tTot v2 = tTot v ∧ oTot v2 = oTot v ∧
      st'.z1 = (applyView st b v2).z1 ∧ st'.z2 = (applyView st b v2).z2 := by
  unfold resolveUndecided at h
  by_cases hd : v.tDeck.length > 0
  · simp only [hd, if_pos] at h
    cases hl : removeLast v.tDeck with
    | none =>
        rw [hl] at h
        rcases h with h | h <;> exact absurd h (by simp)
    | some tDeck =>
        rw [hl] at h
        have hlen := removeLast_length hl
        dsimp only at h
        refine ⟨{ v with tDeck := tDeck, tField := v.tField ++ [inCard] },
          ?_, ?_, ?_⟩
        · simp [tTot]; omega
        · simp [oTot]
        · split_ifs at h with hp hf hf <;>
            rcases h with h | h <;>
            cases h <;>
            exact ⟨rfl, rfl⟩
  · simp only [hd, if_neg, if_false] at h
    cases hl : removeFirstOfType v.tHand inCard with
    | none =>
        rw [hl] at h
        rcases h with h | h <;> exact absurd h (by simp)
    | some tHand =>
        rw [hl] at h
        have hlen := removeFirstOfType_length hl
        dsimp only at h
        refine ⟨{ v with tHand := tHand, tField := v.tField ++ [inCard] },
          ?_, ?_, ?_⟩
        · simp [tTot]; omega
        · simp [oTot]
        · split_ifs at h with hp hf hf <;>
            rcases h with h | h <;>
            cases h <;>
            exact ⟨rfl, rfl⟩



lemma resolveMain_zones {st : GameSt} {b : Bool} {v : ZoneView}
    {sc inCard : Nat} {payload : String} {st' : GameSt} {bl u : Bool}
    (h : resolveMain st b v sc inCard payload = .proceed st' bl u) :
    ∃ v3, tTot v3 + oTot v3 = tTot v + oTot v ∧
      (decide (inCard = Mirror ∧ v.tField.length > 0 ∧ v.oField.length > 0) = false →
        tTot v3 = tTot v ∧ oTot v3 = oTot v) ∧
      (v.tField.length = v.oField.length →
        tTot v3 = tTot v ∧ oTot v3 = oTot v) ∧
      st'.z1 = (applyView st b v3).z1 ∧ st'.z2 = (applyView st b v3).z2 := by
  unfold resolveMain at h
  cases hh : removeFirstOfType v.tHand inCard with
  | none => rw [hh] at h; exact absurd h (by simp)
  | some tHand =>
      rw [hh] at h
      have hlen := removeFirstOfType_length hh
      dsimp only at h
      set R := decide (inCard = ElliotsOrbalStaff ∧ v.tField.length > 0 ∧
        isBolted (lastCard v.tField) = true) with hRdef
      set B := decide (inCard = Bolt ∧ v.oField.length > 0 ∧
        ¬ isBolted (lastCard v.oField) = true) with hBdef
      set M := decide (inCard = Mirror ∧ v.tField.length > 0 ∧
        v.oField.length > 0) with hMdef
      set BL := decide (inCard = Blast ∧ v.oHand.length > 0) with hBLdef
      set F := decide (inCard = Force ∧ sc > 0) with hFdef
      cases hc : boltedTopCleanup { v with tHand := tHand }
          ((!R && !B && !M && !BL) || F) with
      | none => rw [hc] at h; exact absurd h (by simp)
      | some v2 =>
          rw [hc] at h
          dsimp only at h
          have hcTot := boltedTopCleanup_totals hc
          cases he : applyEffect v2 inCard payload R B M BL
              ((!R && !B && !M && !BL) || F) with
          | none => rw [he] at h; exact absurd h (by simp)
          | some v3 =>
              rw [he] at h
              dsimp only at h
              have heTot := applyEffect_totals he
              have hz := finishResolve_zones h
              refine ⟨v3, ?_, ?_, ?_, hz.1, hz.2⟩
              · have h1 := heTot.1
                simp only [tTot, oTot] at h1 hcTot ⊢
                omega
              · intro hMf
                have h2 := heTot.2.1 hMf
                simp only [tTot, oTot] at h2 hcTot ⊢
                omega
              · intro hfe
                by_cases hMt : M = true
                · -- Mirror resolved: the cleanup is a no-op and the swap
                  -- preserves totals because the fields have equal length.
                  have hMir : inCard = Mirror ∧ v.tField.length > 0 ∧
                      v.oField.length > 0 := by
                    rw [hMdef] at hMt
                    exact of_decide_eq_true hMt
                  have hFf : F = false := by
                    rw [hFdef]
                    simp [hMir.1, Mirror, Force]
                  have hNFf : ((!R && !B && !M && !BL) || F) = false := by
                    rw [hMt, hFf]
                    simp
                  rw [hNFf, boltedTopCleanup_false, Option.some.injEq] at hc
                  subst hc
                  have h3 := heTot.2.2 (by simpa using hfe)
                  simp only [tTot, oTot] at h3 ⊢
                  omega
                · have h2 := heTot.2.1 (by simpa using hMt)
                  simp only [tTot, oTot] at h2 hcTot ⊢
                  omega



lemma zonesTotal_applyTurnUpdate (st : GameSt) :
    zonesTotal (applyTurnUpdate st).z1 = zonesTotal st.z1 ∧
    zonesTotal (applyTurnUpdate st).z2 = zonesTotal st.z2 := by
  unfold applyTurnUpdate
  dsimp only
  split_ifs <;> simp [zonesTotal] <;> omega

lemma updateMatchState_zones {st : GameSt} {player : Player} {move : Move}
    (h : (updateMatchState st player move).1.validMove = true) :
    ∃ stR,
      (resolveZones st player move = .earlyDraw stR ∨
        ∃ blf uf, resolveZones st player move = .proceed stR blf uf) ∧
      zonesTotal (updateMatchState st player move).2.z1 = zonesTotal stR.z1 ∧
      zonesTotal (updateMatchState st player move).2.z2 = zonesTotal stR.z2 := by
  unfold updateMatchState at h ⊢
  cases hr : resolveZones st player move with
  | invalid stR =>
      rw [hr] at h
      simp at h
  | earlyDraw stR =>
      exact ⟨stR, Or.inl rfl, rfl, rfl⟩
  | proceed stR blf uf =>
      refine ⟨stR, Or.inr ⟨blf, uf, rfl⟩, ?_⟩
      dsimp only
      by_cases h1 : (recomputeScores stR).turn ≠ Player.undecided
      · rw [if_pos h1]
        cases hce : checkForMatchEnd (recomputeScores stR) blf with
        | mk ended w =>
            cases ended
            · dsimp only
              by_cases h2 : uf = true
              · rw [if_pos h2]
                simpa using zonesTotal_applyTurnUpdate (recomputeScores stR)
              · rw [if_neg h2]
                exact ⟨rfl, rfl⟩
            · exact ⟨rfl, rfl⟩
      · rw [if_neg h1]
        dsimp only
        by_cases h2 : uf = true
        · rw [if_pos h2]
          simpa using zonesTotal_applyTurnUpdate (recomputeScores stR)
        · rw [if_neg h2]
          exact ⟨rfl, rfl⟩



lemma resolveMain_ne_earlyDraw {st : GameSt} {b : Bool} {v : ZoneView}
    {sc inCard : Nat} {payload : String} {st' : GameSt} :
    resolveMain st b v sc inCard payload ≠ .earlyDraw st' := by
  unfold resolveMain
  cases hh : removeFirstOfType v.tHand inCard with
  | none => simp
  | some tHand =>
      dsimp only
      cases hc : boltedTopCleanup { v with tHand := tHand } _ with
      | none => simp
      | some v2 =>
          dsimp only
          cases he : applyEffect v2 inCard payload _ _ _ _ _ with
          | none => simp
          | some v3 =>
              dsimp only
              unfold finishResolve
              split_ifs
              · dsimp only
                split_ifs <;> simp
              · simp

lemma perPlayer_of_view {st : GameSt} {b : Bool} {v' : ZoneView} {stR : GameSt}
    (hz1 : stR.z1 = (applyView st b v').z1) (hz2 : stR.z2 = (applyView st b v').z2)
    (ht : tTot v' = tTot (mkView st b)) (ho : oTot v' = oTot (mkView st b)) :
    zonesTotal stR.z1 = zonesTotal st.z1 ∧ zonesTotal stR.z2 = zonesTotal st.z2 := by
  cases b <;>
    rw [hz1, hz2] <;>
    simp [applyView, mkView, zonesTotal, tTot, oTot] at ht ho ⊢ <;>
    omega

lemma sum_of_view {st : GameSt} {b : Bool} {v' : ZoneView} {stR : GameSt}
    (hz1 : stR.z1 = (applyView st b v').z1) (hz2 : stR.z2 = (applyView st b v').z2)
    (hsum : tTot v' + oTot v' = tTot (mkView st b) + oTot (mkView st b)) :
    zonesTotal stR.z1 + zonesTotal stR.z2 = zonesTotal st.z1 + zonesTotal st.z2 := by
  cases b <;>
    rw [hz1, hz2] <;>
    simp [applyView, mkView, zonesTotal, tTot, oTot] at hsum ⊢ <;>
    omega



/-- C3 (amended). Card conservation: every move resolution that
`updateMatchState` reports as valid leaves the two players' combined zone
total `|deck|+|hand|+|field|+|discard|` unchanged; each single player's
zone total is unchanged whenever the move does not resolve the Mirror
effect, and also under a Mirror resolution whenever the two field lists
have equal length (a Mirror swap with unequal fields transfers the
difference between the players). -/
theorem C3_card_conservation_amended (st : GameSt) (player : Player) (move : Move)
    (h : (updateMatchState st player move).1.validMove = true) :
    totalCards (updateMatchState st player move).2 = totalCards st ∧
    (mirrorResolved st player move = false →
      zonesTotal (updateMatchState st player move).2.z1 = zonesTotal st.z1 ∧
      zonesTotal (updateMatchState st player move).2.z2 = zonesTotal st.z2) ∧
    ((mkView st (player = Player.p1)).tField.length =
        (mkView st (player = Player.p1)).oField.length →
      zonesTotal (updateMatchState st player move).2.z1 = zonesTotal st.z1 ∧
      zonesTotal (updateMatchState st player move).2.z2 = zonesTotal st.z2) := by
  obtain ⟨stR, hcase, hz1, hz2⟩ := updateMatchState_zones h
  suffices hs : zonesTotal stR.z1 + zonesTotal stR.z2 =
      zonesTotal st.z1 + zonesTotal st.z2 ∧
      (mirrorResolved st player move = false →
        zonesTotal stR.z1 = zonesTotal st.z1 ∧ zonesTotal stR.z2 = zonesTotal st.z2) ∧
      ((mkView st (player = Player.p1)).tField.length =
          (mkView st (player = Player.p1)).oField.length →
        zonesTotal stR.z1 = zonesTotal st.z1 ∧ zonesTotal stR.z2 = zonesTotal st.z2) by
    refine ⟨?_, ?_, ?_⟩
    · simp only [totalCards]
      rw [hz1, hz2]
      exact hs.1
    · intro hm
      rw [hz1, hz2]
      exact hs.2.1 hm
    · intro hf
      rw [hz1, hz2]
      exact hs.2.2 hf
  by_cases ht : st.turn = Player.undecided
  · have hres : ∃ v2, tTot v2 = tTot (mkView st (player = Player.p1)) ∧
        oTot v2 = oTot (mkView st (player = Player.p1)) ∧
        stR.z1 = (applyView st (player = Player.p1) v2).z1 ∧
        stR.z2 = (applyView st (player = Player.p1) v2).z2 := by
      rcases hcase with hE | ⟨blf, uf, hP⟩
      · unfold resolveZones at hE
        rw [if_pos ht] at hE
        exact @resolveUndecided_zones _ _ _ _ _ _ false false (Or.inl hE)
      · unfold resolveZones at hP
        rw [if_pos ht] at hP
        exact resolveUndecided_zones (Or.inr hP)
    obtain ⟨v2, htt, hoo, hzz1, hzz2⟩ := hres
    have hper := perPlayer_of_view hzz1 hzz2 htt hoo
    exact ⟨by omega, fun _ => hper, fun _ => hper⟩
  · rcases hcase with hE | ⟨blf, uf, hP⟩
    · unfold resolveZones at hE
      rw [if_neg ht] at hE
      exact absurd hE resolveMain_ne_earlyDraw
    · unfold resolveZones at hP
      rw [if_neg ht] at hP
      obtain ⟨v3, hsum, hm, heq, hzz1, hzz2⟩ := resolveMain_zones hP
      refine ⟨sum_of_view hzz1 hzz2 hsum, ?_, ?_⟩
      · intro hmf
        have hd : decide (toCard move.instruction = Mirror ∧
            (mkView st (player = Player.p1)).tField.length > 0 ∧
            (mkView st (player = Player.p1)).oField.length > 0) = false := by
          simp only [mirrorResolved, decide_eq_false_iff_not] at hmf ⊢
          intro hrest
          exact hmf ⟨ht, hrest⟩
        obtain ⟨ht3, ho3⟩ := hm hd
        exact perPlayer_of_view hzz1 hzz2 ht3 ho3
      · intro hfe
        obtain ⟨ht3, ho3⟩ := heq hfe
        exact perPlayer_of_view hzz1 hzz2 ht3 ho3



lemma resolveUndecided_earlyDraw_props {st : GameSt} {player : Player} {b : Bool}
    {v : ZoneView} {inCard : Nat} {st' : GameSt}
    (h : resolveUndecided st player b v inCard = .earlyDraw st') :
    st'.turn = st.turn ∧
    ¬ (v.tField.length + 1 = 1 ∧ v.oField.length = 1) ∧
    (player = Player.p1 → st'.client1Waiting = false) ∧
    (player ≠ Player.p1 → st'.client2Waiting = false) := by
  unfold resolveUndecided at h
  by_cases hd : v.tDeck.length > 0
  · simp only [hd, if_pos] at h
    cases hl : removeLast v.tDeck with
    | none => rw [hl] at h; exact absurd h (by simp)
    | some tDeck =>
        rw [hl] at h
        dsimp only at h
        split_ifs at h with hf hp hp <;>
          simp only [ResolveOutcome.earlyDraw.injEq] at h <;>
          subst h <;>
          simp_all [applyView] <;>
          split_ifs <;>
          simp_all
  · simp only [hd, if_neg, if_false] at h
    cases hl : removeFirstOfType v.tHand inCard with
    | none => rw [hl] at h; exact absurd h (by simp)
    | some tHand =>
        rw [hl] at h
        dsimp only at h
        split_ifs at h with hf hp hp <;>
          simp only [ResolveOutcome.earlyDraw.injEq] at h <;>
          subst h <;>
          simp_all [applyView] <;>
          split_ifs <;>
          simp_all



lemma applyView_turn (st : GameSt) (b : Bool) (v : ZoneView) :
    (applyView st b v).turn = st.turn := by
  cases b <;> rfl

lemma applyView_p1Score (st : GameSt) (b : Bool) (v : ZoneView) :
    (applyView st b v).p1Score = st.p1Score := by
  cases b <;> rfl

lemma applyView_p2Score (st : GameSt) (b : Bool) (v : ZoneView) :
    (applyView st b v).p2Score = st.p2Score := by
  cases b <;> rfl

lemma applyView_client1Waiting (st : GameSt) (b : Bool) (v : ZoneView) :
    (applyView st b v).client1Waiting = st.client1Waiting := by
  cases b <;> rfl

lemma applyView_client2Waiting (st : GameSt) (b : Bool) (v : ZoneView) :
    (applyView st b v).client2Waiting = st.client2Waiting := by
  cases b <;> rfl

lemma resolveUndecided_proceed_props {st : GameSt} {player : Player} {b : Bool}
    {v : ZoneView} {inCard : Nat} {st' : GameSt} {blf uf : Bool}
    (h : resolveUndecided st player b v inCard = .proceed st' blf uf) :
    blf = false ∧ uf = true ∧ st'.turn = st.turn ∧
    (v.tField.length + 1 = 1 ∧ v.oField.length = 1) ∧
    st'.p1Score = st.p1Score ∧ st'.p2Score = st.p2Score := by
  unfold resolveUndecided at h
  have main : ∀ (v2 : ZoneView),
      ((if ({ v2 with tField := v2.tField ++ [inCard] } : ZoneView).tField.length = 1 ∧
          ({ v2 with tField := v2.tField ++ [inCard] } : ZoneView).oField.length = 1 then
        ResolveOutcome.proceed
          (if player = Player.p1 then
            { applyView st b { v2 with tField := v2.tField ++ [inCard] } with
                client1Waiting := false }
          else
            { applyView st b { v2 with tField := v2.tField ++ [inCard] } with
                client2Waiting := false }) false true
      else
        ResolveOutcome.earlyDraw
          (if player = Player.p1 then
            { applyView st b { v2 with tField := v2.tField ++ [inCard] } with
                client1Waiting := false }
          else
            { applyView st b { v2 with tField := v2.tField ++ [inCard] } with
                client2Waiting := false })) = .proceed st' blf uf) →
      v2.tField = v.tField → v2.oField = v.oField →
      blf = false ∧ uf = true ∧ st'.turn = st.turn ∧
        (v.tField.length + 1 = 1 ∧ v.oField.length = 1) ∧
        st'.p1Score = st.p1Score ∧ st'.p2Score = st.p2Score := by
    intro v2 h2 htf hof
    split at h2
    case isFalse => exact absurd h2 (by simp)
    case isTrue hcond =>
        rw [ResolveOutcome.proceed.injEq] at h2
        obtain ⟨h2a, h2b, h2c⟩ := h2
        refine ⟨h2b.symm, h2c.symm, ?_, ?_, ?_, ?_⟩
        · rw [← h2a]
          split_ifs <;> simp [applyView_turn]
        · simp only [List.length_append, List.length_singleton, htf, hof] at hcond
          simpa using hcond
        · rw [← h2a]
          split_ifs <;> simp [applyView_p1Score]
        · rw [← h2a]
          split_ifs <;> simp [applyView_p2Score]
  by_cases hd : v.tDeck.length > 0
  · simp only [hd, if_pos] at h
    cases hl : removeLast v.tDeck with
    | none => rw [hl] at h; exact absurd h (by simp)
    | some tDeck =>
        rw [hl] at h
        dsimp only at h
        exact main { v with tDeck := tDeck } h rfl rfl
  · simp only [hd, if_neg, if_false] at h
    cases hl : removeFirstOfType v.tHand inCard with
    | none => rw [hl] at h; exact absurd h (by simp)
    | some tHand =>
        rw [hl] at h
        dsimp only at h
        exact main { v with tHand := tHand } h rfl rfl



lemma finishResolve_props {st : GameSt} {b : Bool} {v : ZoneView} {blE : Bool}
    {st' : GameSt} {bl u : Bool}
    (h : finishResolve st b v blE = .proceed st' bl u) :
    bl = blE ∧ u = !blE ∧ st'.turn = st.turn ∧
    st'.p1Score = st.p1Score ∧ st'.p2Score = st.p2Score ∧
    (blE = true → (st.turn = Player.p1 → st'.client1Waiting = true) ∧
      (st.turn ≠ Player.p1 → st'.client2Waiting = true)) ∧
    (blE = false → st'.client1Waiting = st.client1Waiting ∧
      st'.client2Waiting = st.client2Waiting) := by
  unfold finishResolve at h
  split_ifs at h with hb
  · dsimp only at h
    subst hb
    split_ifs at h with ht <;>
      rw [ResolveOutcome.proceed.injEq] at h <;>
      obtain ⟨h1, h2, h3⟩ := h <;>
      subst h2 <;> subst h3 <;> rw [← h1] <;>
      simp [applyView_turn, applyView_p1Score, applyView_p2Score,
        applyView_client1Waiting, applyView_client2Waiting, ht] <;>
      simp [applyView_turn] at ht ⊢ <;>
      tauto
  · rw [ResolveOutcome.proceed.injEq] at h
    obtain ⟨h1, h2, h3⟩ := h
    subst h2
    subst h3
    rw [← h1]
    rw [Bool.not_eq_true] at hb
    simp [hb, applyView_turn, applyView_p1Score, applyView_p2Score,
      applyView_client1Waiting, applyView_client2Waiting]

lemma applyTurnUpdate_props (st : GameSt) :
    (applyTurnUpdate st).p1Score = st.p1Score ∧
    (applyTurnUpdate st).p2Score = st.p2Score ∧
    (st.p1Score = st.p2Score →
      (applyTurnUpdate st).turn = Player.undecided ∧
      (applyTurnUpdate st).client1Waiting = true ∧
      (applyTurnUpdate st).client2Waiting = true ∧
      (applyTurnUpdate st).z1.field = [] ∧
      (applyTurnUpdate st).z2.field = [] ∧
      (applyTurnUpdate st).z1.discard = st.z1.discard ++ st.z1.field ∧
      (applyTurnUpdate st).z2.discard = st.z2.discard ++ st.z2.field) ∧
    (st.p1Score < st.p2Score →
      (applyTurnUpdate st).turn = Player.p1 ∧
      (applyTurnUpdate st).client1Waiting = true) ∧
    (st.p2Score < st.p1Score →
      (applyTurnUpdate st).turn = Player.p2 ∧
      (applyTurnUpdate st).client2Waiting = true) := by
  unfold applyTurnUpdate
  dsimp only
  split_ifs with h1 h2 <;> simp_all <;> omega



lemma resolveMain_proceed_props {st : GameSt} {b : Bool} {v : ZoneView}
    {sc inCard : Nat} {payload : String} {st' : GameSt} {bl u : Bool}
    (h : resolveMain st b v sc inCard payload = .proceed st' bl u) :
    bl = decide (inCard = Blast ∧ v.oHand.length > 0) ∧
    u = !bl ∧ st'.turn = st.turn ∧
    st'.p1Score = st.p1Score ∧ st'.p2Score = st.p2Score ∧
    (bl = true → (st.turn = Player.p1 → st'.client1Waiting = true) ∧
      (st.turn ≠ Player.p1 → st'.client2Waiting = true)) := by
  unfold resolveMain at h
  cases hh : removeFirstOfType v.tHand inCard with
  | none => rw [hh] at h; exact absurd h (by simp)
  | some tHand =>
      rw [hh] at h
      dsimp only at h
      set R := decide (inCard = ElliotsOrbalStaff ∧ v.tField.length > 0 ∧
        isBolted (lastCard v.tField) = true) with hRdef
      set B := decide (inCard = Bolt ∧ v.oField.length > 0 ∧
        ¬ isBolted (lastCard v.oField) = true) with hBdef
      set M := decide (inCard = Mirror ∧ v.tField.length > 0 ∧
        v.oField.length > 0) with hMdef
      set BL := decide (inCard = Blast ∧ v.oHand.length > 0) with hBLdef
      set F := decide (inCard = Force ∧ sc > 0) with hFdef
      cases hc : boltedTopCleanup { v with tHand := tHand }
          ((!R && !B && !M && !BL) || F) with
      | none => rw [hc] at h; exact absurd h (by simp)
      | some v2 =>
          rw [hc] at h
          dsimp only at h
          cases he : applyEffect v2 inCard payload R B M BL
              ((!R && !B && !M && !BL) || F) with
          | none => rw [he] at h; exact absurd h (by simp)
          | some v3 =>
              rw [he] at h
              dsimp only at h
              have hp := finishResolve_props h
              exact ⟨hp.1, hp.1 ▸ hp.2.1, hp.2.2.1, hp.2.2.2.1, hp.2.2.2.2.1,
                fun hbt => hp.2.2.2.2.2.1 (hp.1 ▸ hbt)⟩




/-- C4 (amended). Turn advancement and board clear after a valid,
non-match-ending move resolution made on the acting player's turn: if the
Blast effect was resolved, the turn marker is unchanged and the acting
player's wait flag is set; otherwise, for a first draw during Undecided
that does not yet fill both fields (the early return), the turn stays
Undecided and only the acting player's wait flag is cleared; otherwise, if
the two recomputed scores are equal the turn becomes Undecided, both wait
flags are set and both fields are emptied with their cards appended to the
owners' discard piles, and if the scores differ the turn goes to the
lower-scoring player, whose wait flag is set. -/
theorem C4_turn_advancement_amended (st : GameSt) (player : Player) (move : Move)
    (hp : player ≠ Player.undecided)
    (hv : isValidMove st player = true)
    (hok : (updateMatchState st player move).1.validMove = true)
    (hend : (updateMatchState st player move).1.matchEnded = false) :
    (blastResolved st player move = true →
      (updateMatchState st player move).2.turn = st.turn ∧
      waitingOf (updateMatchState st player move).2 player = true) ∧
    (blastResolved st player move = false →
      (undecidedEarlyReturn st player = true →
        (updateMatchState st player move).2.turn = Player.undecided ∧
        waitingOf (updateMatchState st player move).2 player = false) ∧
      (undecidedEarlyReturn st player = false →
        ((updateMatchState st player move).2.p1Score =
            (updateMatchState st player move).2.p2Score →
          (updateMatchState st player move).2.turn = Player.undecided ∧
          (updateMatchState st player move).2.client1Waiting = true ∧
          (updateMatchState st player move).2.client2Waiting = true ∧
          (updateMatchState st player move).2.z1.field = [] ∧
          (updateMatchState st player move).2.z2.field = [] ∧
          ∃ m blf, resolveZones st player move = .proceed m blf true ∧
            (updateMatchState st player move).2.z1.discard =
              m.z1.discard ++ m.z1.field ∧
            (updateMatchState st player move).2.z2.discard =
              m.z2.discard ++ m.z2.field) ∧
        ((updateMatchState st player move).2.p1Score <
            (updateMatchState st player move).2.p2Score →
          (updateMatchState st player move).2.turn = Player.p1 ∧
          (updateMatchState st player move).2.client1Waiting = true) ∧
        ((updateMatchState st player move).2.p2Score <
            (updateMatchState st player move).2.p1Score →
          (updateMatchState st player move).2.turn = Player.p2 ∧
          (updateMatchState st player move).2.client2Waiting = true))) := by
  unfold updateMatchState at hok hend ⊢
  cases hr : resolveZones st player move with
  | invalid stR =>
      rw [hr] at hok
      simp at hok
  | earlyDraw stR =>
      by_cases ht : st.turn = Player.undecided
      · have hrE := hr
        unfold resolveZones at hrE
        rw [if_pos ht] at hrE
        obtain ⟨hturn, hnotone, hw1, hw2⟩ := resolveUndecided_earlyDraw_props hrE
        have hbf : blastResolved st player move = false := by
          simp [blastResolved, ht]
        have hef : undecidedEarlyReturn st player = true := by
          simp only [undecidedEarlyReturn]
          exact decide_eq_true ⟨ht, hnotone⟩
        refine ⟨fun hbt => ?_, fun _ => ⟨fun _ => ?_, fun hef2 => ?_⟩⟩
        · rw [hbf] at hbt
          cases hbt
        · refine ⟨hturn.trans ht, ?_⟩
          cases player with
          | undecided => exact absurd rfl hp
          | p1 => simpa [waitingOf] using hw1 rfl
          | p2 => simpa [waitingOf] using hw2 (by decide)
        · rw [hef] at hef2
          cases hef2
      · have hrE := hr
        unfold resolveZones at hrE
        rw [if_neg ht] at hrE
        exact absurd hrE resolveMain_ne_earlyDraw
  | proceed stR blf uf =>
      rw [hr] at hend
      dsimp only at hend ⊢
      by_cases ht : st.turn = Player.undecided
      · have hrP := hr
        unfold resolveZones at hrP
        rw [if_pos ht] at hrP
        obtain ⟨hblf, huf, hturn, hone, hsc1, hsc2⟩ :=
          resolveUndecided_proceed_props hrP
        subst hblf
        subst huf
        have ht2 : (recomputeScores stR).turn = Player.undecided := by
          simpa [recomputeScores] using hturn.trans ht
        rw [if_neg (by simpa using ht2)]
        rw [if_pos rfl]
        have hbf : blastResolved st player move = false := by
          simp [blastResolved, ht]
        have hef : undecidedEarlyReturn st player = false := by
          simp only [undecidedEarlyReturn, decide_eq_false_iff_not]
          rintro ⟨-, hno⟩
          exact hno hone
        obtain ⟨hS1, hS2, htie, hlt, hgt⟩ :=
          applyTurnUpdate_props (recomputeScores stR)
        refine ⟨fun hbt => ?_, fun _ => ⟨fun het => ?_, fun _ => ⟨?_, ?_, ?_⟩⟩⟩
        · rw [hbf] at hbt
          cases hbt
        · rw [hef] at het
          cases het
        · intro hteq
          rw [hS1, hS2] at hteq
          obtain ⟨ha, hb, hc, hd, he, hf, hg⟩ := htie hteq
          exact ⟨ha, hb, hc, hd, he, stR, false, rfl, hf, hg⟩
        · intro hlt2
          rw [hS1, hS2] at hlt2
          exact hlt hlt2
        · intro hgt2
          rw [hS1, hS2] at hgt2
          exact hgt hgt2
      · have hrP := hr
        unfold resolveZones at hrP
        rw [if_neg ht] at hrP
        obtain ⟨hbleq, hueq, hturn, hsc1, hsc2, hwset⟩ :=
          resolveMain_proceed_props hrP
        have hplayer : st.turn = player := by
          unfold isValidMove at hv
          by_cases hq : st.turn = player
          · exact hq
          · rw [if_pos ⟨hq, ht⟩] at hv
            cases hv
        have hbr : blastResolved st player move = blf := by
          rw [hbleq]
          simp only [blastResolved]
          rw [decide_eq_decide]
          constructor
          · rintro ⟨-, h2, h3⟩
            exact ⟨h2, h3⟩
          · intro h2
            exact ⟨ht, h2.1, h2.2⟩
        have ht2 : ¬ (recomputeScores stR).turn = Player.undecided := by
          simpa [recomputeScores, hturn] using ht
        rw [if_pos (by simpa using ht2)] at hend ⊢
        cases hce : checkForMatchEnd (recomputeScores stR) blf with
        | mk ended w =>
            rw [hce] at hend
            cases ended with
            | true =>
                dsimp only at hend
                cases hend
            | false =>
                dsimp only
                have hef : undecidedEarlyReturn st player = false := by
                  simp only [undecidedEarlyReturn, decide_eq_false_iff_not]
                  rintro ⟨hu, -⟩
                  exact ht hu
                by_cases hbl : blf = true
                · subst hbl
                  rw [if_neg (show ¬ uf = true by simp [hueq])]
                  refine ⟨fun _ => ?_, fun hb2 => ?_⟩
                  · refine ⟨hturn, ?_⟩
                    obtain ⟨hws1, hws2⟩ := hwset rfl
                    cases player with
                    | undecided => exact absurd rfl hp
                    | p1 =>
                        simpa [waitingOf, recomputeScores] using hws1 hplayer
                    | p2 =>
                        have : st.turn ≠ Player.p1 := by
                          rw [hplayer]
                          decide
                        simpa [waitingOf, recomputeScores] using hws2 this
                  · rw [hbr] at hb2
                    cases hb2
                · have hblf : blf = false := by
                    cases blf
                    · rfl
                    · exact absurd rfl hbl
                  subst hblf
                  rw [if_pos (show uf = true by simp [hueq])]
                  obtain ⟨hS1, hS2, htie, hlt, hgt⟩ :=
                    applyTurnUpdate_props (recomputeScores stR)
                  refine ⟨fun hbt => ?_, fun _ => ⟨fun het => ?_, fun _ => ⟨?_, ?_, ?_⟩⟩⟩
                  · rw [hbr] at hbt
                    cases hbt
                  · rw [hef] at het
                    cases het
                  · intro hteq
                    rw [hS1, hS2] at hteq
                    obtain ⟨ha, hb, hc, hd, he, hf, hg⟩ := htie hteq
                    refine ⟨ha, hb, hc, hd, he, stR, false, ?_, hf, hg⟩
                    simp [hueq]
                  · intro hlt2
                    rw [hS1, hS2] at hlt2
                    exact hlt hlt2
                  · intro hgt2
                    rw [hS1, hS2] at hgt2
                    exact hgt hgt2


/-- C3 counterexample: a Mirror resolution with fields of different sizes is
reported valid yet changes the acting player's zone total. Player 1 plays
Mirror (instruction 9) with one card on their own field and two on the
opponent's: the swap raises player 1's total from 4 to 5 (and lowers
player 2's from 4 to 3), refuting per-player card conservation. -/
theorem C3_card_conservation_counterexample :
    (updateMatchState
        { z1 := ⟨[2], [8, 1], [0], []⟩, z2 := ⟨[3], [1], [1, 2], []⟩,
          p1Score := 1, p2Score := 5, turn := Player.p1,
          client1Waiting := true, client2Waiting := false }
        Player.p1 ⟨9, ""⟩).1.validMove = true ∧
    zonesTotal (updateMatchState
        { z1 := ⟨[2], [8, 1], [0], []⟩, z2 := ⟨[3], [1], [1, 2], []⟩,
          p1Score := 1, p2Score := 5, turn := Player.p1,
          client1Waiting := true, client2Waiting := false }
        Player.p1 ⟨9, ""⟩).2.z1 = 5 ∧
    zonesTotal (⟨[2], [8, 1], [0], []⟩ : Zones) = 4 := by
  decide

/-- C4 counterexample: the first draw of a match (turn Undecided, stored
scores equal at 0, opponent's field still empty) is reported valid and not
match-ending, Blast is not resolved, and the post-state scores are equal —
yet the drawn card stays on the field (no board clear) and the acting
player's `waitingForMove` is false rather than true. -/
theorem C4_turn_advancement_counterexample :
    (updateMatchState
        { z1 := ⟨[2], [], [], []⟩, z2 := ⟨[3], [], [], []⟩,
          p1Score := 0, p2Score := 0, turn := Player.undecided,
          client1Waiting := true, client2Waiting := true }
        Player.p1 ⟨3, ""⟩).1.validMove = true ∧
    (updateMatchState
        { z1 := ⟨[2], [], [], []⟩, z2 := ⟨[3], [], [], []⟩,
          p1Score := 0, p2Score := 0, turn := Player.undecided,
          client1Waiting := true, client2Waiting := true }
        Player.p1 ⟨3, ""⟩).1.matchEnded = false ∧
    blastResolved
        { z1 := ⟨[2], [], [], []⟩, z2 := ⟨[3], [], [], []⟩,
          p1Score := 0, p2Score := 0, turn := Player.undecided,
          client1Waiting := true, client2Waiting := true }
        Player.p1 ⟨3, ""⟩ = false ∧
    (updateMatchState
        { z1 := ⟨[2], [], [], []⟩, z2 := ⟨[3], [], [], []⟩,
          p1Score := 0, p2Score := 0, turn := Player.undecided,
          client1Waiting := true, client2Waiting := true }
        Player.p1 ⟨3, ""⟩).2.p1Score =
      (updateMatchState
        { z1 := ⟨[2], [], [], []⟩, z2 := ⟨[3], [], [], []⟩,
          p1Score := 0, p2Score := 0, turn := Player.undecided,
          client1Waiting := true, client2Waiting := true }
        Player.p1 ⟨3, ""⟩).2.p2Score ∧
    (updateMatchState
        { z1 := ⟨[2], [], [], []⟩, z2 := ⟨[3], [], [], []⟩,
          p1Score := 0, p2Score := 0, turn := Player.undecided,
          client1Waiting := true, client2Waiting := true }
        Player.p1 ⟨3, ""⟩).2.z1.field = [2] ∧
    (updateMatchState
        { z1 := ⟨[2], [], [], []⟩, z2 := ⟨[3], [], [], []⟩,
          p1Score := 0, p2Score := 0, turn := Player.undecided,
          client1Waiting := true, client2Waiting := true }
        Player.p1 ⟨3, ""⟩).2.client1Waiting = false := by
  decide

/-- C1 counterexample: player 2 (to move) plays a basic card and stays below
player 1's score; `updateMatchState` declares player 1 the winner on the
higher-score ground even though player 2's remaining hand holds both a card
whose value covers the gap and a Mirror — feasible counters the claim says
must rule out the win. -/
theorem C1_win_detection_counterexample :
    (updateMatchState
        { z1 := ⟨[2], [1], [6], []⟩, z2 := ⟨[3], [0, 6, 8], [0], []⟩,
          p1Score := 7, p2Score := 1, turn := Player.p2,
          client1Waiting := false, client2Waiting := true }
        Player.p2 ⟨1, ""⟩).1 = ⟨true, true, Player.p1⟩ ∧
    canOvercomeDifference
      (updateMatchState
        { z1 := ⟨[2], [1], [6], []⟩, z2 := ⟨[3], [0, 6, 8], [0], []⟩,
          p1Score := 7, p2Score := 1, turn := Player.p2,
          client1Waiting := false, client2Waiting := true }
        Player.p2 ⟨1, ""⟩).2.z2.hand
      ((updateMatchState
        { z1 := ⟨[2], [1], [6], []⟩, z2 := ⟨[3], [0, 6, 8], [0], []⟩,
          p1Score := 7, p2Score := 1, turn := Player.p2,
          client1Waiting := false, client2Waiting := true }
        Player.p2 ⟨1, ""⟩).2.p1Score -
       (updateMatchState
        { z1 := ⟨[2], [1], [6], []⟩, z2 := ⟨[3], [0, 6, 8], [0], []⟩,
          p1Score := 7, p2Score := 1, turn := Player.p2,
          client1Waiting := false, client2Waiting := true }
        Player.p2 ⟨1, ""⟩).2.p2Score) = true ∧
    containsCard
      (updateMatchState
        { z1 := ⟨[2], [1], [6], []⟩, z2 := ⟨[3], [0, 6, 8], [0], []⟩,
          p1Score := 7, p2Score := 1, turn := Player.p2,
          client1Waiting := false, client2Waiting := true }
        Player.p2 ⟨1, ""⟩).2.z2.hand Mirror = true := by
  decide

/-! ## Claim C1: win detection on the score gap -/

/-- An if-chain whose branches all produce `false` is `false`. -/
lemma false_chain (c1 c2 c3 c4 c5 : Prop) [Decidable c1] [Decidable c2]
    [Decidable c3] [Decidable c4] [Decidable c5] :
    (if c1 then false else if c2 then false else if c3 then false
      else if c4 then false else if c5 then false else false) = false := by
  split_ifs <;> rfl

/-- Characterisation of the win-check body: the feasibility checks of the
score-gap section never influence the outcome, because every path through
them returns `false`. A win is reported exactly on one of the two `true`
early exits of that section or one of the three earlier early exits. -/
lemma playerHasWonCore_iff (tScore oScore oDeck : Nat)
    (tField oHand oField : List Nat) (isOppTurn blast : Bool) :
    playerHasWonCore tScore tField oScore oHand oField oDeck isOppTurn blast = true ↔
      ((oHand ≠ [] ∧ containsOnlyEffectCards oHand = true) ∨
       (tScore = oScore ∧ oDeck + oHand.length = 0) ∨
       (blast = true ∧ oHand = []) ∨
       (tScore > oScore ∧ ((isOppTurn = true ∧ blast = false) ∨ oHand = []))) := by
  unfold playerHasWonCore
  by_cases h1 : (oHand.length > 0 && containsOnlyEffectCards oHand) = true
  · rw [if_pos h1]
    rw [Bool.and_eq_true] at h1
    exact iff_of_true rfl
      (Or.inl ⟨List.length_pos.mp (by simpa using h1.1), h1.2⟩)
  · rw [if_neg h1]
    by_cases h2 : tScore = oScore ∧ oDeck + oHand.length = 0
    · rw [if_pos h2]
      exact iff_of_true rfl (Or.inr (Or.inl h2))
    · rw [if_neg h2]
      by_cases h3 : blast = true ∧ oHand.length = 0
      · rw [if_pos h3]
        exact iff_of_true rfl
          (Or.inr (Or.inr (Or.inl ⟨h3.1, List.length_eq_zero.mp h3.2⟩)))
      · rw [if_neg h3]
        by_cases h4 : tScore > oScore
        · rw [if_pos h4]
          by_cases h5 : (isOppTurn && !blast) = true
          · rw [if_pos h5]
            rw [Bool.and_eq_true, Bool.not_eq_true'] at h5
            exact iff_of_true rfl (Or.inr (Or.inr (Or.inr ⟨h4, Or.inl h5⟩)))
          · rw [if_neg h5]
            by_cases h6 : oHand.length = 0
            · rw [if_pos h6]
              exact iff_of_true rfl
                (Or.inr (Or.inr (Or.inr ⟨h4, Or.inr (List.length_eq_zero.mp h6)⟩)))
            · rw [if_neg h6, false_chain]
              refine iff_of_false (by simp) ?_
              rintro (⟨hne, honly⟩ | h2' | h3' | ⟨_, (⟨ht, hb⟩ | he)⟩)
              · apply h1
                rw [Bool.and_eq_true]
                exact ⟨by simpa using List.length_pos.mpr hne, honly⟩
              · exact h2 h2'
              · exact h3 ⟨h3'.1, by simp [h3'.2]⟩
              · apply h5
                rw [Bool.and_eq_true, Bool.not_eq_true']
                exact ⟨ht, hb⟩
              · exact h6 (by simp [he])
        · rw [if_neg h4]
          refine iff_of_false (by simp) ?_
          rintro (⟨hne, honly⟩ | h2' | h3' | ⟨hg, _⟩)
          · apply h1
            rw [Bool.and_eq_true]
            exact ⟨by simpa using List.length_pos.mpr hne, honly⟩
          · exact h2 h2'
          · exact h3 ⟨h3'.1, by simp [h3'.2]⟩
          · exact h4 hg

/-- C1 (amended). Win detection for player X against opponent O: X is
declared winner exactly when O's non-empty hand holds only effect cards, or
the scores are tied with O out of deck and hand, or a Blast emptied O's
hand, or — the higher-score ground — X's score exceeds O's and either the
current turn is O's with the resolved move not Blast, or O's hand is empty.
On the higher-score ground the turn/not-Blast condition alone suffices: O's
feasible counters (a covering hand card, Rod, Bolt, Mirror, Blast or Force)
are never consulted for the outcome. -/
theorem C1_win_detection_amended (st : GameSt) (player : Player) (blast : Bool)
    (hp : player ≠ Player.undecided) :
    (playerHasWon st player blast = true ↔
      ((if player = Player.p1 then st.z2.hand else st.z1.hand) ≠ [] ∧
          containsOnlyEffectCards
            (if player = Player.p1 then st.z2.hand else st.z1.hand) = true) ∨
        ((if player = Player.p1 then st.p1Score else st.p2Score) =
            (if player = Player.p1 then st.p2Score else st.p1Score) ∧
          (if player = Player.p1 then st.z2.deck.length else st.z1.deck.length) +
            (if player = Player.p1 then st.z2.hand else st.z1.hand).length = 0) ∨
        (blast = true ∧ (if player = Player.p1 then st.z2.hand else st.z1.hand) = []) ∨
        ((if player = Player.p1 then st.p1Score else st.p2Score) >
            (if player = Player.p1 then st.p2Score else st.p1Score) ∧
          ((st.turn ≠ player ∧ blast = false) ∨
            (if player = Player.p1 then st.z2.hand else st.z1.hand) = []))) := by
  cases player with
  | undecided => exact absurd rfl hp
  | p1 =>
      simp only [playerHasWon, if_pos]
      rw [playerHasWonCore_iff]
      simp [decide_eq_true_eq]
  | p2 =>
      simp only [playerHasWon]
      rw [if_neg (by decide), if_pos trivial]
      rw [playerHasWonCore_iff]
      simp [decide_eq_true_eq]

/-- Witness for C1 at a concrete input: with scores 7 to 2, the turn on
player 2 and no Blast, player 1 is declared winner (despite player 2's hand
holding a Mirror and a card covering the gap). -/
theorem C1_win_detection_amended_witness :
    playerHasWon
      { z1 := ⟨[2], [1], [6], []⟩, z2 := ⟨[3], [8, 6], [0, 0], []⟩,
        p1Score := 7, p2Score := 2, turn := Player.p2,
        client1Waiting := false, client2Waiting := true }
      Player.p1 false = true :=
  (C1_win_detection_amended
    { z1 := ⟨[2], [1], [6], []⟩, z2 := ⟨[3], [8, 6], [0, 0], []⟩,
      p1Score := 7, p2Score := 2, turn := Player.p2,
      client1Waiting := false, client2Waiting := true }
    Player.p1 false (by decide)).mpr (by decide)

/-! ## Claims C3 and C4: witnesses -/

/-- Witness for C3 at a concrete input: a valid non-Mirror resolution
(player 2 plays a basic card) preserves the combined zone total. -/
theorem C3_card_conservation_amended_witness :
    totalCards (updateMatchState
      { z1 := ⟨[2], [1], [6], []⟩, z2 := ⟨[3], [0, 6, 8], [0], []⟩,
        p1Score := 7, p2Score := 1, turn := Player.p2,
        client1Waiting := false, client2Waiting := true }
      Player.p2 ⟨1, ""⟩).2 = totalCards
      { z1 := ⟨[2], [1], [6], []⟩, z2 := ⟨[3], [0, 6, 8], [0], []⟩,
        p1Score := 7, p2Score := 1, turn := Player.p2,
        client1Waiting := false, client2Waiting := true } :=
  (C3_card_conservation_amended
    { z1 := ⟨[2], [1], [6], []⟩, z2 := ⟨[3], [0, 6, 8], [0], []⟩,
      p1Score := 7, p2Score := 1, turn := Player.p2,
      client1Waiting := false, client2Waiting := true }
    Player.p2 ⟨1, ""⟩ (by decide)).1

/-- Witness for C4 at a concrete input: player 1 plays a card that takes
the score to 7 against 2; the turn passes to the lower-scoring player 2,
whose wait flag is set. -/
theorem C4_turn_advancement_amended_witness :
    (updateMatchState
      { z1 := ⟨[2], [6], [], []⟩, z2 := ⟨[3], [5], [1], []⟩,
        p1Score := 0, p2Score := 2, turn := Player.p1,
        client1Waiting := true, client2Waiting := false }
      Player.p1 ⟨7, ""⟩).2.turn = Player.p2 ∧
    (updateMatchState
      { z1 := ⟨[2], [6], [], []⟩, z2 := ⟨[3], [5], [1], []⟩,
        p1Score := 0, p2Score := 2, turn := Player.p1,
        client1Waiting := true, client2Waiting := false }
      Player.p1 ⟨7, ""⟩).2.client2Waiting = true :=
  ((((C4_turn_advancement_amended
      { z1 := ⟨[2], [6], [], []⟩, z2 := ⟨[3], [5], [1], []⟩,
        p1Score := 0, p2Score := 2, turn := Player.p1,
        client1Waiting := true, client2Waiting := false }
      Player.p1 ⟨7, ""⟩ (by decide) (by decide) (by decide)
      (by decide)).2 (by decide)).2 (by decide)).2.2) (by decide)

/-! ## Claim C6: ready-check timeout with partial failure -/

/-- C6. When `pollReadyCheck` runs on a pair whose ready check has timed
out and at least one client's accept is invalid: the pair is reported done,
no match confirmation is sent, every invalid client is enqueued for removal
with `ReadyCheckFailed`, and every valid client has its ready-checking and
ready flags reset, receives `OpponentDidNotAccept`, and is not enqueued for
removal (so it remains in the queue). -/
theorem C6_ready_check_timeout (queueNow : Int) (pair : ClientPair)
    (cm : Except String Nat)
    (htime : queueNow - pair.readyStart > readyCheckTimeNs)
    (hinv : ¬ (readyValid pair pair.client1 = true ∧
      readyValid pair pair.client2 = true)) :
    (pollReadyCheck queueNow pair cm).finished = true ∧
    (pollReadyCheck queueNow pair cm).matchConfirmedSent = false ∧
    (readyValid pair pair.client1 = false →
      (1, WSCReadyCheckFailed) ∈ (pollReadyCheck queueNow pair cm).removals) ∧
    (readyValid pair pair.client1 = true →
      (pollReadyCheck queueNow pair cm).client1.isReadyChecking = false ∧
      (pollReadyCheck queueNow pair cm).client1.ready = false ∧
      (1, WSCOpponentDidNotAccept) ∈ (pollReadyCheck queueNow pair cm).messages ∧
      ∀ c, ((1 : Nat), c) ∉ (pollReadyCheck queueNow pair cm).removals) ∧
    (readyValid pair pair.client2 = false →
      (2, WSCReadyCheckFailed) ∈ (pollReadyCheck queueNow pair cm).removals) ∧
    (readyValid pair pair.client2 = true →
      (pollReadyCheck queueNow pair cm).client2.isReadyChecking = false ∧
      (pollReadyCheck queueNow pair cm).client2.ready = false ∧
      (2, WSCOpponentDidNotAccept) ∈ (pollReadyCheck queueNow pair cm).messages ∧
      ∀ c, ((2 : Nat), c) ∉ (pollReadyCheck queueNow pair cm).removals) := by
  have ht : decide (queueNow - pair.readyStart > readyCheckTimeNs) = true :=
    decide_eq_true htime
  by_cases hv1 : readyValid pair pair.client1 = true <;>
    by_cases hv2 : readyValid pair pair.client2 = true
  · exact absurd ⟨hv1, hv2⟩ hinv
  · rw [Bool.not_eq_true] at hv2
    simp [pollReadyCheck, ht, hv1, hv2, WSCReadyCheckFailed, WSCOpponentDidNotAccept]
  · rw [Bool.not_eq_true] at hv1
    simp [pollReadyCheck, ht, hv1, hv2, WSCReadyCheckFailed, WSCOpponentDidNotAccept]
  · rw [Bool.not_eq_true] at hv1 hv2
    simp [pollReadyCheck, ht, hv1, hv2, WSCReadyCheckFailed, WSCOpponentDidNotAccept]

/-- Witness for C6 at a concrete input: the ready check timed out, client 1
accepted in time but client 2 never accepted; the pair is reported done. -/
theorem C6_ready_check_timeout_witness :
    (pollReadyCheck 20000000001
      ⟨⟨1, 10, 1, true, 1, false, false⟩, ⟨2, 20, 2, false, 0, true, false⟩, 0⟩
      (.ok 5)).finished = true :=
  (C6_ready_check_timeout 20000000001
    ⟨⟨1, 10, 1, true, 1, false, false⟩, ⟨2, 20, 2, false, 0, true, false⟩, 0⟩
    (.ok 5) (by decide) (by decide)).1

/-! ## Claim C7: createMatch failure handling -/

/-- C7. `createMatch` failure at ready-check completion: with both clients
valid and the persistence call failing, both clients are enqueued with
`ReadyCheckFailed` and the pair is reported done — but, contrary to the
claim, the `MatchConfirmed` broadcast IS still sent (the error branch does
not return), and two further neutral removals are enqueued. -/
theorem C7_create_match_failure_divergence :
    (pollReadyCheck 2
      ⟨⟨1, 10, 1, true, 1, true, false⟩, ⟨2, 20, 2, true, 1, true, false⟩, 0⟩
      (.error "db down")).finished = true ∧
    (pollReadyCheck 2
      ⟨⟨1, 10, 1, true, 1, true, false⟩, ⟨2, 20, 2, true, 1, true, false⟩, 0⟩
      (.error "db down")).removals =
      [(1, WSCReadyCheckFailed), (2, WSCReadyCheckFailed),
        (1, WSCNone), (2, WSCNone)] ∧
    (pollReadyCheck 2
      ⟨⟨1, 10, 1, true, 1, true, false⟩, ⟨2, 20, 2, true, 1, true, false⟩, 0⟩
      (.error "db down")).matchConfirmedSent = true := by
  decide

/-! ## Claim C8: matchmaking removal step -/

/-- C8. Removal-step divergence: with clients 1 and 2 in join order and one
valid removal request for client 1 (matching UUID), the queue map correctly
drops client 1 but the join-order list ends up as `[1]` — the inner scan's
guard reads `clientIndex[index]` with the outer loop index and then deletes
at the unrelated `indexIterator` position, so the list neither preserves
the survivors nor stays consistent with the map's key set (which is `[2]`
afterwards). -/
theorem C8_removal_step_divergence :
    (removalPhase [1, 2] [(1, ⟨1, 100, 1⟩), (2, ⟨2, 200, 2⟩)]
      [⟨1, 100, 1⟩]).1 = [1] ∧
    ((removalPhase [1, 2] [(1, ⟨1, 100, 1⟩), (2, ⟨2, 200, 2⟩)]
      [⟨1, 100, 1⟩]).2).map (fun p => p.1) = [2] ∧
    (removalPhase [1, 2] [(1, ⟨1, 100, 1⟩), (2, ⟨2, 200, 2⟩)]
      [⟨1, 100, 1⟩]).1 ≠ [2] := by
  decide

/-! ## Claim C9: forfeit handling in the match tick -/

/-- C9. Forfeit-dispatch divergence: a text frame whose payload code is
`Forfeit` (415) matches no branch of `tickClient` and is dropped, because
the forfeit branch compares the websocket message TYPE (1 for text) with
the `Forfeit` code instead of the payload code; indeed no message at all
can ever reach the forfeit branch. -/
theorem C9_forfeit_dispatch_divergence :
    tickClientDispatch WSMTText WSCMatchForfeit = TickAction.ignored ∧
    ∀ msgType payloadCode,
      tickClientDispatch msgType payloadCode ≠ TickAction.forfeitAction := by
  refine ⟨by decide, ?_⟩
  intro msgType payloadCode
  unfold tickClientDispatch
  split_ifs with h1 h2 h3 h4 <;> simp_all [WSMTText, WSCMatchForfeit]

/-! ## Claim C5: match finality -/

/-- C5. Match-finality divergence: over the execution in which user 1
connects to match 7, reconnects (evicting the stale connection, whose
`MultipleConnections` disconnect request hits the catch-all reason branch
of the disconnect handler while the match is still waiting for players),
then user 2 joins (starting the match) and user 2's connection drops,
`SetMatchResult` runs twice for match ID 7 — which is not the debug ID. -/
theorem C5_match_finality_divergence :
    (runGameServer ⟨[], []⟩
      [.connect ⟨1, 100, 7⟩, .connect ⟨1, 101, 7⟩, .connect ⟨2, 200, 7⟩,
        .disconnect ⟨⟨2, 200, 7⟩, WSCUnknownConnectionError⟩]).smrCalls =
      [7, 7] ∧
    (7 : Nat) ≠ debugGameID := by
  decide

end BladeII
